import Mathlib

/-!
# libs7comm: the packet analyser `src/analysis/analyze.c`

A shallow embedding of the decoder chain
`pcap_callback → pcap_parse_ip4 → pcap_parse_tcp → pcap_parse_profinet_request/response
→ dump_profinet_request`.

Conventions of the embedding.

* Target: Linux on x86-64 (the file includes `<linux/...>` headers): `int` is 32 bits,
  `size_t` is 64 bits, `uint16_t` is 2-aligned and read in little-endian byte order.
* Memory is a function from addresses to bytes; a pointer is an address; `bytes + n` is
  addition of addresses. The captured buffer is the address range `[bytes, bytes + caplen)`.
* A C function returning `void` becomes a value of `Exec Unit`: the trace of what it did
  (functions entered, bytes loaded, lines printed), and how it ended (returned, or which
  `assert` aborted the run).
* `printf` is the external reporting sink: a printed line is recorded as a `Line` carrying
  the format it came from and its arguments.
-/

namespace Analyze

/-! ## Machine integers -/

/-- Conversion of an integer value to `size_t` (unsigned, 64 bits): reduction modulo `2^64`.
This is the conversion C applies to an `int` operand that is compared with a `sizeof`. -/
def to_size_t (x : Int) : Nat := (x % 18446744073709551616).toNat

/-- Conversion of an integer value to `int` (signed, 32 bits, two's complement). -/
def to_int (x : Int) : Int := (x + 2147483648) % 4294967296 - 2147483648

/-- The values of type `int`. -/
def is_int (x : Int) : Prop := -2147483648 ≤ x ∧ x ≤ 2147483647

instance (x : Int) : Decidable (is_int x) := by unfold is_int; infer_instance

/-! ## Memory -/

/-- Memory: the byte stored at each address (reduced modulo 256 when loaded). -/
abbrev Mem := Nat → Nat

/-- The value of a `uint8_t` object at address `a`. -/
def mem8 (mem : Mem) (a : Nat) : Nat := mem a % 256

/-- The value of a `uint16_t` object at address `a`, in host (little-endian) byte order. -/
def mem16 (mem : Mem) (a : Nat) : Nat := mem8 mem a + 256 * mem8 mem (a + 1)

/-- The value of `ntohs(x)` for a 16-bit object `x` at address `a`: its two bytes read in
network (big-endian) byte order. -/
def mem16be (mem : Mem) (a : Nat) : Nat := 256 * mem8 mem a + mem8 mem (a + 1)

/-! ## Constants and layouts -/

/-- The null pointer, the `user` argument `main` hands to `pcap_loop`. -/
def NULL : Nat := 0

def PROFINET_PORT : Nat := 102

def PROFINET_ISO_PROTOCOL : Nat := 0x03

def PROFINET_ISO_FUNCTION_PDU_TRANSPORT : Nat := 0xf0

def PROFINET_ISO_FUNCTION_CONNECT : Nat := 0xe0

/-- Modelled from the spec: `sizeof(struct ethhdr)` of `<linux/if_ether.h>`, a header that is
not part of the repository; the spec gives "Ethernet header = 14 bytes". -/
def sizeof_ethhdr : Nat := 14

/-- Modelled from the spec: `sizeof(struct iphdr)` of `<linux/ip.h>`, a header that is not
part of the repository; the spec gives "minimum IPv4 header = 20 bytes". -/
def sizeof_iphdr : Nat := 20

/-- Modelled from the spec: `sizeof(struct tcphdr)` of `<linux/tcp.h>`, a header that is not
part of the repository; the spec gives "minimum TCP header = 20 bytes". -/
def sizeof_tcphdr : Nat := 20

/-- Modelled from the spec: `ETH_P_IP` of `<linux/if_ether.h>`, a header that is not part of
the repository; the IPv4 type code of the Ethernet protocol-type field. -/
def ETH_P_IP : Nat := 0x0800

/-- Modelled from the spec: `ETH_P_ARP` of `<linux/if_ether.h>`, a header that is not part of
the repository; the ARP type code of the Ethernet protocol-type field. -/
def ETH_P_ARP : Nat := 0x0806

/-- Modelled from the spec: `IPPROTO_TCP` of the system headers, the IP protocol number of
TCP. -/
def IPPROTO_TCP : Nat := 6

/-- Modelled from the spec: `IPPROTO_UDP` of the system headers, the IP protocol number of
UDP. -/
def IPPROTO_UDP : Nat := 17

/-- Modelled from the spec: offset of `h_proto` in `struct ethhdr` of `<linux/if_ether.h>`;
the 16-bit protocol type follows the two 6-byte MAC addresses of the 14-byte header. -/
def offsetof_ethhdr_h_proto : Nat := 12

/-- Modelled from the spec: offset of the byte of `struct iphdr` of `<linux/ip.h>` that holds
the bit-fields `version` (the version nibble, the high one) and `ihl` (the header length in
4-byte words, the low one): the first byte of an IPv4 header. -/
def offsetof_iphdr_version_ihl : Nat := 0

/-- Modelled from the spec: offset of `protocol` in `struct iphdr` of `<linux/ip.h>`: byte 9
of an IPv4 header. -/
def offsetof_iphdr_protocol : Nat := 9

/-- Modelled from the spec: offset of `source` in `struct tcphdr` of `<linux/tcp.h>`: the
source port is the first 16-bit field of a TCP header. -/
def offsetof_tcphdr_source : Nat := 0

/-- Modelled from the spec: offset of `dest` in `struct tcphdr` of `<linux/tcp.h>`: the
destination port is the second 16-bit field of a TCP header. -/
def offsetof_tcphdr_dest : Nat := 2

/-- Modelled from the spec: offset of the byte of `struct tcphdr` of `<linux/tcp.h>` whose
high nibble is the bit-field `doff`, the data offset in 4-byte words: byte 12 of a TCP
header. -/
def offsetof_tcphdr_doff : Nat := 12

/-- Round an offset up to the next multiple of an alignment. -/
def align_up (off a : Nat) : Nat := (off + a - 1) / a * a

/-! `struct profinet_iso_header`: seven `uint8_t` members, no padding, alignment 1. -/

def offsetof_iso_prot : Nat := 0
def offsetof_iso_ch1 : Nat := 1
def offsetof_iso_ch2 : Nat := 2
def offsetof_iso_len : Nat := 3
def offsetof_iso_xxxx1 : Nat := 4
def offsetof_iso_func : Nat := 5
def offsetof_iso_xxxx2 : Nat := 6
def sizeof_profinet_iso_header : Nat := 7

/-! `struct profinet_ibh_header`: `uint16_t channel; uint8_t len; uint8_t seq;
uint16_t sflags; uint16_t rflags;`, alignment 2. -/

def alignof_profinet_ibh_header : Nat := 2
def offsetof_ibh_channel : Nat := 0
def offsetof_ibh_len : Nat := 2
def offsetof_ibh_seq : Nat := 3
def offsetof_ibh_sflags : Nat := align_up (offsetof_ibh_seq + 1) 2
def offsetof_ibh_rflags : Nat := align_up (offsetof_ibh_sflags + 2) 2
def sizeof_profinet_ibh_header : Nat :=
  align_up (offsetof_ibh_rflags + 2) alignof_profinet_ibh_header

/-! `struct profinet_request`: the two headers, then `uint16_t prefix; uint8_t unknown1;
uint8_t read_size; uint16_t read_length; uint16_t db_num; uint8_t area_code;
uint8_t start_addr; uint16_t start_addr_2;`. Each member is placed at the next offset that is
a multiple of its alignment. -/

def offsetof_request_iso : Nat := 0
def offsetof_request_ibh : Nat :=
  align_up (offsetof_request_iso + sizeof_profinet_iso_header) alignof_profinet_ibh_header
def offsetof_request_prefix_ : Nat :=
  align_up (offsetof_request_ibh + sizeof_profinet_ibh_header) 2
def offsetof_request_unknown1 : Nat := offsetof_request_prefix_ + 2
def offsetof_request_read_size : Nat := offsetof_request_unknown1 + 1
def offsetof_request_read_length : Nat := align_up (offsetof_request_read_size + 1) 2
def offsetof_request_db_num : Nat := align_up (offsetof_request_read_length + 2) 2
def offsetof_request_area_code : Nat := offsetof_request_db_num + 2
def offsetof_request_start_addr : Nat := offsetof_request_area_code + 1
def offsetof_request_start_addr_2 : Nat := align_up (offsetof_request_start_addr + 1) 2
def sizeof_profinet_request : Nat := align_up (offsetof_request_start_addr_2 + 2) 2

/-! ## Traces -/

/-- The functions of `analyze.c` that take part in decoding. -/
inductive Func where
  | dump_profinet_iso_header
  | dump_profinet_ibh_header
  | dump_profinet_request
  | pcap_parse_profinet_request
  | pcap_parse_profinet_response
  | pcap_parse_tcp
  | pcap_parse_ip4
  | pcap_callback
  deriving DecidableEq

/-- The lines the program prints, one constructor per `printf` of the decoder chain, with
the arguments of the call. -/
inductive Line where
  /-- Line `Protocol = 0x%02x` printed with arguments `h->prot`. -/
  | iso_protocol (prot : Nat)
  /-- Line `Length = %d (packet length %d)` printed with arguments `h->len, len`. -/
  | iso_length (hlen : Nat) (len : Int)
  /-- Line `Function = PDU Transport`. -/
  | iso_function_pdu_transport
  /-- Line `Function = Connect to rack`. -/
  | iso_function_connect
  /-- Line `Protocol = UNKNOWN (0x%02x)` printed with arguments `h->func`. -/
  | iso_function_unknown (func : Nat)
  /-- Line `IBH channel: 0x%04x` printed with arguments `ibh->channel`. -/
  | ibh_channel (channel : Nat)
  /-- Line `IBH len: %d` printed with arguments `ibh->len`. -/
  | ibh_len (len : Nat)
  /-- Line `IBH seq: %d` printed with arguments `ibh->seq`. -/
  | ibh_seq (seq : Nat)
  /-- Line `IBH sflags: 0x%04x` printed with arguments `ibh->sflags`. -/
  | ibh_sflags (sflags : Nat)
  /-- Line `IBH rflags: 0x%04x` printed with arguments `ibh->rflags`. -/
  | ibh_rflags (rflags : Nat)
  /-- Line `Prefix = 0x%04x` printed with arguments `r->prefix`. -/
  | request_prefix_ (v : Nat)
  /-- Line `Read size = %d` printed with arguments `r->read_size`. -/
  | request_read_size (v : Nat)
  /-- Line `Length = %d` printed with arguments `r->read_length`. -/
  | request_read_length (v : Nat)
  /-- Line `===== REQUEST ==========================`. -/
  | request_banner
  /-- Line `===== RESPONSE =========================`. -/
  | response_banner
  /-- Line `Unknown connection at dest port = %d, src_port = %d` printed with arguments
  `dst_port, src_port`. -/
  | unknown_connection (dst_port src_port : Nat)
  /-- Line `Unknown IP protocol %d` printed with arguments `ip_proto`. -/
  | unknown_ip_protocol (ip_proto : Nat)
  /-- Line `Unknown ethernet protocol = %02x` printed with arguments `eth_proto`. -/
  | unknown_ethernet_protocol (eth_proto : Nat)
  deriving DecidableEq

/-- The `assert`s of the decoder chain. -/
inductive Assertion where
  /-- The assertion `assert(h->prot == PROFINET_ISO_PROTOCOL)` in `dump_profinet_iso_header` -/
  | iso_prot
  /-- The assertion `assert(false)` in the `default` case of `dump_profinet_iso_header` -/
  | iso_func
  /-- The assertion `assert(r->ibh.channel == 7)` in `dump_profinet_request` -/
  | ibh_channel
  /-- The assertion `assert(r->iso.len == len)` in `dump_profinet_request` -/
  | iso_len
  /-- The assertion `assert(! user)` in `pcap_parse_tcp` -/
  | tcp_user
  /-- The assertion `assert(hdr_len >= sizeof(struct tcphdr))` in `pcap_parse_tcp` -/
  | tcp_hdr_len
  /-- The assertion `assert(! user)` in `pcap_parse_ip4` -/
  | ip4_user
  /-- The assertion `assert(iph->version == 4)` in `pcap_parse_ip4` -/
  | ip4_version
  /-- The assertion `assert(! user)` in `pcap_callback` -/
  | callback_user
  deriving DecidableEq

/-- What a run does, in order. -/
inductive Event where
  /-- Entry of a function with this pointer argument and, when it has one, this length. -/
  | call (f : Func) (ptr : Nat) (len : Option Int)
  /-- Load of `width` bytes from address `addr`. -/
  | load (addr width : Nat)
  /-- A line is printed. -/
  | print (l : Line)
  deriving DecidableEq

/-- How a run ends: the function returns, or an `assert` fails and aborts the program. -/
inductive Outcome (α : Type) where
  | returned (a : α)
  | aborted (by_ : Assertion)
  deriving DecidableEq

/-- A run: its trace and its outcome. -/
structure Exec (α : Type) where
  trace : List Event
  outcome : Outcome α
  deriving DecidableEq

namespace Exec

/-- Nothing happens; the value is `a`. -/
protected def pure {α : Type} (a : α) : Exec α := ⟨[], .returned a⟩

/-- The run `e` preceded by the events `t`. -/
protected def after {α : Type} (e : Exec α) (t : List Event) : Exec α :=
  ⟨t ++ e.trace, e.outcome⟩

/-- Sequencing: `f` runs after `m` unless `m` aborted. -/
protected def bind {α β : Type} (m : Exec α) (f : α → Exec β) : Exec β :=
  match m.outcome with
  | .aborted a => ⟨m.trace, .aborted a⟩
  | .returned x => (f x).after m.trace

instance : Monad Exec where
  pure := Exec.pure
  bind := Exec.bind

end Exec

/-- Entry of a function. -/
def enter (f : Func) (ptr : Nat) (len : Option Int) : Exec Unit :=
  ⟨[.call f ptr len], .returned ()⟩

/-- The call of `printf` that prints one line. -/
def printf (l : Line) : Exec Unit := ⟨[.print l], .returned ()⟩

/-- The statement `assert(c)`, identified by `a`. -/
def assert (c : Bool) (a : Assertion) : Exec Unit :=
  if c then ⟨[], .returned ()⟩ else ⟨[], .aborted a⟩

/-- Load of a `uint8_t` member at address `a`. -/
def load8 (mem : Mem) (a : Nat) : Exec Nat := ⟨[.load a 1], .returned (mem8 mem a)⟩

/-- Load of a `uint16_t` member at address `a`. -/
def load16 (mem : Mem) (a : Nat) : Exec Nat := ⟨[.load a 2], .returned (mem16 mem a)⟩

/-- Load of a 16-bit member at address `a`, passed through `ntohs`. -/
def load16_ntohs (mem : Mem) (a : Nat) : Exec Nat :=
  ⟨[.load a 2], .returned (mem16be mem a)⟩

/-- Load of the high nibble of the byte at address `a` (a 4-bit bit-field). -/
def load_hi4 (mem : Mem) (a : Nat) : Exec Nat := ⟨[.load a 1], .returned (mem8 mem a / 16)⟩

/-- Load of the low nibble of the byte at address `a` (a 4-bit bit-field). -/
def load_lo4 (mem : Mem) (a : Nat) : Exec Nat := ⟨[.load a 1], .returned (mem8 mem a % 16)⟩

/-! ## The decoder chain -/

/-- The function `dump_profinet_iso_header(h, len)`. -/
def dump_profinet_iso_header (mem : Mem) (h : Nat) (len : Int) : Exec Unit := do
  enter .dump_profinet_iso_header h (some len)
  printf (.iso_protocol (← load8 mem (h + offsetof_iso_prot)))
  assert ((← load8 mem (h + offsetof_iso_prot)) == PROFINET_ISO_PROTOCOL) .iso_prot
  printf (.iso_length (← load8 mem (h + offsetof_iso_len)) len)
  let func ← load8 mem (h + offsetof_iso_func)
  if func == PROFINET_ISO_FUNCTION_PDU_TRANSPORT then
    printf .iso_function_pdu_transport
  else if func == PROFINET_ISO_FUNCTION_CONNECT then
    printf .iso_function_connect
  else do
    printf (.iso_function_unknown (← load8 mem (h + offsetof_iso_func)))
    assert false .iso_func

/-- The function `dump_profinet_ibh_header(ibh)`. -/
def dump_profinet_ibh_header (mem : Mem) (ibh : Nat) : Exec Unit := do
  enter .dump_profinet_ibh_header ibh none
  printf (.ibh_channel (← load16 mem (ibh + offsetof_ibh_channel)))
  printf (.ibh_len (← load8 mem (ibh + offsetof_ibh_len)))
  printf (.ibh_seq (← load8 mem (ibh + offsetof_ibh_seq)))
  printf (.ibh_sflags (← load16 mem (ibh + offsetof_ibh_sflags)))
  printf (.ibh_rflags (← load16 mem (ibh + offsetof_ibh_rflags)))

/-- The function `dump_profinet_request(r, len)`. -/
def dump_profinet_request (mem : Mem) (r : Nat) (len : Int) : Exec Unit := do
  enter .dump_profinet_request r (some len)
  dump_profinet_iso_header mem (r + offsetof_request_iso) len
  dump_profinet_ibh_header mem (r + offsetof_request_ibh)
  printf (.request_prefix_ (← load16 mem (r + offsetof_request_prefix_)))
  printf (.request_read_size (← load8 mem (r + offsetof_request_read_size)))
  printf (.request_read_length (← load16 mem (r + offsetof_request_read_length)))
  assert ((← load16 mem (r + offsetof_request_ibh + offsetof_ibh_channel)) == 7) .ibh_channel
  assert (((← load8 mem (r + offsetof_request_iso + offsetof_iso_len)) : Int) == len) .iso_len

/-- The function `pcap_parse_profinet_request(user, bytes, len)`. -/
def pcap_parse_profinet_request (user : Nat) (mem : Mem) (bytes : Nat) (len : Int) :
    Exec Unit := do
  let _ := user
  enter .pcap_parse_profinet_request bytes (some len)
  printf .request_banner
  dump_profinet_request mem bytes len

/-- The function `pcap_parse_profinet_response(user, bytes, len)`. -/
def pcap_parse_profinet_response (user : Nat) (mem : Mem) (bytes : Nat) (len : Int) :
    Exec Unit := do
  let _ := user
  enter .pcap_parse_profinet_response bytes (some len)
  printf .response_banner
  dump_profinet_request mem bytes len

/-- The function `pcap_parse_tcp(user, bytes, len)`. -/
def pcap_parse_tcp (user : Nat) (mem : Mem) (bytes : Nat) (len : Int) : Exec Unit := do
  enter .pcap_parse_tcp bytes (some len)
  assert (user == NULL) .tcp_user
  if to_size_t len < sizeof_tcphdr then
    return ()
  let dst_port ← load16_ntohs mem (bytes + offsetof_tcphdr_dest)
  let src_port ← load16_ntohs mem (bytes + offsetof_tcphdr_source)
  let hdr_len : Nat := (← load_hi4 mem (bytes + offsetof_tcphdr_doff)) * 4
  assert (to_size_t hdr_len ≥ sizeof_tcphdr) .tcp_hdr_len
  let payload_len : Int := to_int (len - hdr_len)
  if to_size_t payload_len < sizeof_profinet_request then
    return ()
  if dst_port == PROFINET_PORT then
    pcap_parse_profinet_request user mem (bytes + hdr_len) payload_len
  else if src_port == PROFINET_PORT then
    pcap_parse_profinet_response user mem (bytes + hdr_len) payload_len
  else
    printf (.unknown_connection dst_port src_port)

/-- The function `pcap_parse_ip4(user, bytes, len)`. -/
def pcap_parse_ip4 (user : Nat) (mem : Mem) (bytes : Nat) (len : Int) : Exec Unit := do
  enter .pcap_parse_ip4 bytes (some len)
  assert (user == NULL) .ip4_user
  if to_size_t len < sizeof_iphdr then
    return ()
  assert ((← load_hi4 mem (bytes + offsetof_iphdr_version_ihl)) == 4) .ip4_version
  let ip_proto ← load8 mem (bytes + offsetof_iphdr_protocol)
  let header_len : Nat := ((← load_lo4 mem (bytes + offsetof_iphdr_version_ihl)) * 4) % 256
  if ip_proto == IPPROTO_TCP then
    pcap_parse_tcp user mem (bytes + header_len) (to_int (len - header_len))
  else
    printf (.unknown_ip_protocol ip_proto)

/-- The function `pcap_callback(user, h, bytes)`, where `caplen` is `h->caplen`, an unsigned
32-bit number. -/
def pcap_callback (user : Nat) (mem : Mem) (caplen : Nat) (bytes : Nat) : Exec Unit := do
  enter .pcap_callback bytes (some caplen)
  assert (user == NULL) .callback_user
  if caplen < sizeof_ethhdr then
    return ()
  let eth_proto ← load16_ntohs mem (bytes + offsetof_ethhdr_h_proto)
  if eth_proto == ETH_P_IP then
    pcap_parse_ip4 user mem (bytes + sizeof_ethhdr) (to_int ((caplen : Int) - sizeof_ethhdr))
  else if eth_proto == ETH_P_ARP then
    pure ()
  else
    printf (.unknown_ethernet_protocol eth_proto)

/-! ## Observations on a run -/

/-- The lines a run printed, in order. -/
def Exec.lines {α : Type} (e : Exec α) : List Line :=
  e.trace.filterMap fun ev => match ev with
    | .print l => some l
    | _ => none

/-- The functions a run entered, in order, each with its pointer and length arguments. -/
def Exec.calls {α : Type} (e : Exec α) : List (Func × Nat × Option Int) :=
  e.trace.filterMap fun ev => match ev with
    | .call f p n => some (f, p, n)
    | _ => none

/-- The functions a run entered, in order. -/
def Exec.entered {α : Type} (e : Exec α) : List Func := e.calls.map Prod.fst

/-- The loads of a run, in order: address and width. -/
def Exec.loads {α : Type} (e : Exec α) : List (Nat × Nat) :=
  e.trace.filterMap fun ev => match ev with
    | .load a w => some (a, w)
    | _ => none

/-! ## The structures as values -/

/-- A value of `struct profinet_iso_header`. -/
structure profinet_iso_header where
  prot : Nat
  ch1 : Nat
  ch2 : Nat
  len : Nat
  xxxx1 : Nat
  func : Nat
  xxxx2 : Nat
  deriving DecidableEq

/-- A value of `struct profinet_ibh_header`. -/
structure profinet_ibh_header where
  channel : Nat
  len : Nat
  seq : Nat
  sflags : Nat
  rflags : Nat
  deriving DecidableEq

/-- A value of `struct profinet_request` (the member `prefix` is named `prefix_`). -/
structure profinet_request where
  iso : profinet_iso_header
  ibh : profinet_ibh_header
  prefix_ : Nat
  unknown1 : Nat
  read_size : Nat
  read_length : Nat
  db_num : Nat
  area_code : Nat
  start_addr : Nat
  start_addr_2 : Nat
  deriving DecidableEq

/-- The value `*h` of a `struct profinet_iso_header *h`. -/
def deref_iso_header (mem : Mem) (h : Nat) : profinet_iso_header where
  prot := mem8 mem (h + offsetof_iso_prot)
  ch1 := mem8 mem (h + offsetof_iso_ch1)
  ch2 := mem8 mem (h + offsetof_iso_ch2)
  len := mem8 mem (h + offsetof_iso_len)
  xxxx1 := mem8 mem (h + offsetof_iso_xxxx1)
  func := mem8 mem (h + offsetof_iso_func)
  xxxx2 := mem8 mem (h + offsetof_iso_xxxx2)

/-- The value `*ibh` of a `struct profinet_ibh_header *ibh`. -/
def deref_ibh_header (mem : Mem) (ibh : Nat) : profinet_ibh_header where
  channel := mem16 mem (ibh + offsetof_ibh_channel)
  len := mem8 mem (ibh + offsetof_ibh_len)
  seq := mem8 mem (ibh + offsetof_ibh_seq)
  sflags := mem16 mem (ibh + offsetof_ibh_sflags)
  rflags := mem16 mem (ibh + offsetof_ibh_rflags)

/-- The value `*r` of `struct profinet_request *r = (struct profinet_request*)bytes`. -/
def deref_request (mem : Mem) (r : Nat) : profinet_request where
  iso := deref_iso_header mem (r + offsetof_request_iso)
  ibh := deref_ibh_header mem (r + offsetof_request_ibh)
  prefix_ := mem16 mem (r + offsetof_request_prefix_)
  unknown1 := mem8 mem (r + offsetof_request_unknown1)
  read_size := mem8 mem (r + offsetof_request_read_size)
  read_length := mem16 mem (r + offsetof_request_read_length)
  db_num := mem16 mem (r + offsetof_request_db_num)
  area_code := mem8 mem (r + offsetof_request_area_code)
  start_addr := mem8 mem (r + offsetof_request_start_addr)
  start_addr_2 := mem16 mem (r + offsetof_request_start_addr_2)

/-! ## The header fields `pcap_parse_tcp` and `pcap_parse_ip4` read -/

/-- The value of `ntohs(tcph->source)` for `tcph = (struct tcphdr*)bytes`. -/
def tcp_src_port (mem : Mem) (bytes : Nat) : Nat := mem16be mem (bytes + offsetof_tcphdr_source)

/-- The value of `ntohs(tcph->dest)`. -/
def tcp_dst_port (mem : Mem) (bytes : Nat) : Nat := mem16be mem (bytes + offsetof_tcphdr_dest)

/-- The value of `tcph->doff`. -/
def tcp_doff (mem : Mem) (bytes : Nat) : Nat := mem8 mem (bytes + offsetof_tcphdr_doff) / 16

/-- The value of `hdr_len = tcph->doff * 4`. -/
def tcp_hdr_len (mem : Mem) (bytes : Nat) : Nat := tcp_doff mem bytes * 4

/-- The value of `payload_len = len - hdr_len`. -/
def tcp_payload_len (mem : Mem) (bytes : Nat) (len : Int) : Int :=
  to_int (len - (tcp_hdr_len mem bytes : Nat))

/-- The value of `iph->version` for `iph = (struct iphdr*)bytes`. -/
def ip_version (mem : Mem) (bytes : Nat) : Nat :=
  mem8 mem (bytes + offsetof_iphdr_version_ihl) / 16

/-- The value of `iph->ihl`. -/
def ip_ihl (mem : Mem) (bytes : Nat) : Nat := mem8 mem (bytes + offsetof_iphdr_version_ihl) % 16

/-- The value of `iph->protocol`. -/
def ip_protocol (mem : Mem) (bytes : Nat) : Nat := mem8 mem (bytes + offsetof_iphdr_protocol)

/-- The segment passes the three size checks of `pcap_parse_tcp` in the way the code
evaluates them: `len < sizeof(struct tcphdr)` is false, the assertion
`hdr_len >= sizeof(struct tcphdr)` holds, and `payload_len < sizeof(struct profinet_request)`
is false, each `int` operand being converted to `size_t`. -/
def passes_size_gates (mem : Mem) (bytes : Nat) (len : Int) : Prop :=
  ¬ to_size_t len < sizeof_tcphdr ∧
  to_size_t (tcp_hdr_len mem bytes : Nat) ≥ sizeof_tcphdr ∧
  ¬ to_size_t (tcp_payload_len mem bytes len) < sizeof_profinet_request

instance (mem : Mem) (bytes : Nat) (len : Int) : Decidable (passes_size_gates mem bytes len) := by
  unfold passes_size_gates; infer_instance

/-- The run handed the segment to the request decoder. -/
def classified_request (e : Exec Unit) : Prop := Func.pcap_parse_profinet_request ∈ e.entered

/-- The run handed the segment to the response decoder. -/
def classified_response (e : Exec Unit) : Prop := Func.pcap_parse_profinet_response ∈ e.entered

instance (e : Exec Unit) : Decidable (classified_request e) := by
  unfold classified_request; infer_instance

instance (e : Exec Unit) : Decidable (classified_response e) := by
  unfold classified_response; infer_instance

/-! ## Expected traces and output -/

/-- The events of `dump_profinet_iso_header` up to the protocol check. -/
def iso_trace_prot (mem : Mem) (h : Nat) (len : Int) : List Event :=
  [.call .dump_profinet_iso_header h (some len), .load h 1,
   .print (.iso_protocol (mem8 mem h)), .load h 1]

/-- The events of `dump_profinet_iso_header` up to the evaluation of `switch (h->func)`. -/
def iso_trace_func (mem : Mem) (h : Nat) (len : Int) : List Event :=
  iso_trace_prot mem h len ++
  [.load (h + 3) 1, .print (.iso_length (mem8 mem (h + 3)) len), .load (h + 5) 1]

/-- The events of `dump_profinet_ibh_header`. -/
def ibh_trace (mem : Mem) (ibh : Nat) : List Event :=
  [.call .dump_profinet_ibh_header ibh none,
   .load ibh 2, .print (.ibh_channel (mem16 mem ibh)),
   .load (ibh + 2) 1, .print (.ibh_len (mem8 mem (ibh + 2))),
   .load (ibh + 3) 1, .print (.ibh_seq (mem8 mem (ibh + 3))),
   .load (ibh + 4) 2, .print (.ibh_sflags (mem16 mem (ibh + 4))),
   .load (ibh + 6) 2, .print (.ibh_rflags (mem16 mem (ibh + 6)))]

/-- The events of `dump_profinet_request` between the two header dumps and the final check
of the length. -/
def body_trace (mem : Mem) (r : Nat) : List Event :=
  [.load (r + 16) 2, .print (.request_prefix_ (mem16 mem (r + 16))),
   .load (r + 19) 1, .print (.request_read_size (mem8 mem (r + 19))),
   .load (r + 20) 2, .print (.request_read_length (mem16 mem (r + 20))),
   .load (r + 8) 2]

/-- The four conditions under which the spec lets the decoding of a payload of length `len`
complete: protocol-id 0x03, function code 0xF0 or 0xE0, channel id 7, outer length equal to
`len`. -/
def request_valid (q : profinet_request) (len : Int) : Prop :=
  q.iso.prot = 0x03 ∧ (q.iso.func = 0xF0 ∨ q.iso.func = 0xE0) ∧ q.ibh.channel = 7 ∧
  (q.iso.len : Int) = len

instance (q : profinet_request) (len : Int) : Decidable (request_valid q len) := by
  unfold request_valid; infer_instance

/-- The field dump of a request `q` presented with length `len`: the lines a complete decode
prints after the banner. -/
def request_lines (q : profinet_request) (len : Int) : List Line :=
  [.iso_protocol q.iso.prot, .iso_length q.iso.len len,
   if q.iso.func = 0xF0 then .iso_function_pdu_transport else .iso_function_connect,
   .ibh_channel q.ibh.channel, .ibh_len q.ibh.len, .ibh_seq q.ibh.seq,
   .ibh_sflags q.ibh.sflags, .ibh_rflags q.ibh.rflags,
   .request_prefix_ q.prefix_, .request_read_size q.read_size,
   .request_read_length q.read_length]

/-! ## Building a request in memory -/

/-- Assignment to a `uint8_t` object at address `a`. -/
def store8 (mem : Mem) (a v : Nat) : Mem := fun b => if b = a then v % 256 else mem b

/-- Assignment to a `uint16_t` object at address `a` (little-endian). -/
def store16 (mem : Mem) (a v : Nat) : Mem := store8 (store8 mem a (v % 256)) (a + 1) (v / 256)

/-- Every member of the request holds a value of its type (`uint8_t` or `uint16_t`). -/
def request_in_range (q : profinet_request) : Prop :=
  q.iso.prot < 256 ∧ q.iso.ch1 < 256 ∧ q.iso.ch2 < 256 ∧ q.iso.len < 256 ∧ q.iso.xxxx1 < 256 ∧
  q.iso.func < 256 ∧ q.iso.xxxx2 < 256 ∧
  q.ibh.channel < 65536 ∧ q.ibh.len < 256 ∧ q.ibh.seq < 256 ∧ q.ibh.sflags < 65536 ∧
  q.ibh.rflags < 65536 ∧
  q.prefix_ < 65536 ∧ q.unknown1 < 256 ∧ q.read_size < 256 ∧ q.read_length < 65536 ∧
  q.db_num < 65536 ∧ q.area_code < 256 ∧ q.start_addr < 256 ∧ q.start_addr_2 < 65536

instance (q : profinet_request) : Decidable (request_in_range q) := by
  unfold request_in_range; infer_instance

/-- Serialisation of a request at the layout of `struct profinet_request`: the memory after
`*r = q`, member by member, each at its offset in the structure. -/
def write_request (mem : Mem) (r : Nat) (q : profinet_request) : Mem :=
  let m := store8 mem (r + offsetof_request_iso + offsetof_iso_prot) q.iso.prot
  let m := store8 m (r + offsetof_request_iso + offsetof_iso_ch1) q.iso.ch1
  let m := store8 m (r + offsetof_request_iso + offsetof_iso_ch2) q.iso.ch2
  let m := store8 m (r + offsetof_request_iso + offsetof_iso_len) q.iso.len
  let m := store8 m (r + offsetof_request_iso + offsetof_iso_xxxx1) q.iso.xxxx1
  let m := store8 m (r + offsetof_request_iso + offsetof_iso_func) q.iso.func
  let m := store8 m (r + offsetof_request_iso + offsetof_iso_xxxx2) q.iso.xxxx2
  let m := store16 m (r + offsetof_request_ibh + offsetof_ibh_channel) q.ibh.channel
  let m := store8 m (r + offsetof_request_ibh + offsetof_ibh_len) q.ibh.len
  let m := store8 m (r + offsetof_request_ibh + offsetof_ibh_seq) q.ibh.seq
  let m := store16 m (r + offsetof_request_ibh + offsetof_ibh_sflags) q.ibh.sflags
  let m := store16 m (r + offsetof_request_ibh + offsetof_ibh_rflags) q.ibh.rflags
  let m := store16 m (r + offsetof_request_prefix_) q.prefix_
  let m := store8 m (r + offsetof_request_unknown1) q.unknown1
  let m := store8 m (r + offsetof_request_read_size) q.read_size
  let m := store16 m (r + offsetof_request_read_length) q.read_length
  let m := store16 m (r + offsetof_request_db_num) q.db_num
  let m := store8 m (r + offsetof_request_area_code) q.area_code
  let m := store8 m (r + offsetof_request_start_addr) q.start_addr
  store16 m (r + offsetof_request_start_addr_2) q.start_addr_2

/-! ## Concrete memories -/

/-- A memory holding the given bytes from address 0 on, and zero elsewhere. -/
def mem_of (bs : List Nat) : Mem := fun a => bs.getD a 0

/-- A 20-byte TCP header, source port 50, destination port 102, whose data-offset field is
15: it announces a 60-byte header of which 20 bytes were captured. -/
def truncated_segment : List Nat :=
  [0, 50, 0, 102, 0, 0, 0, 0, 0, 0, 0, 0, 0xF0, 0, 0, 0, 0, 0, 0, 0]

/-- A 20-byte IPv4 header, version 4, protocol 6 (TCP), whose header-length field is 15: it
announces a 60-byte header of which 20 bytes are available. -/
def long_ihl_packet : List Nat :=
  [0x4F, 0, 0, 0, 0, 0, 0, 0, 0, 6, 0, 0, 0, 0, 0, 0, 0, 0, 0, 0]

/-- A valid request of 28 bytes: protocol-id 0x03, outer length 28, function 0xF0, one
padding byte, channel 7, then the remaining members. -/
def request_bytes : List Nat :=
  [3, 0, 0, 28, 2, 0xF0, 0x80, 0, 7, 0, 0, 5, 1, 0, 2, 0, 0x34, 0x12, 0, 4, 8, 0, 1, 0, 0x84,
   0, 0, 1]

/-- A 20-byte TCP header with the given ports and data offset 5. -/
def tcp_header (src dst : Nat) : List Nat :=
  [src / 256, src % 256, dst / 256, dst % 256, 0, 0, 0, 0, 0, 0, 0, 0, 0x50, 0, 0, 0, 0, 0,
   0, 0]

/-- A 48-byte TCP segment with the given ports carrying the valid request. -/
def request_segment (src dst : Nat) : List Nat := tcp_header src dst ++ request_bytes

/-- The valid request with the protocol-id byte set to 0xFF. -/
def bad_protocol_bytes : List Nat := request_bytes.set 0 0xFF

/-- The valid request with the function code set to 0x32. -/
def unknown_function_bytes : List Nat := request_bytes.set 5 0x32

/-- A 20-byte TCP header from port 50 to port 102 whose data-offset field is 4. -/
def short_doff_header : List Nat :=
  [0, 50, 0, 102, 0, 0, 0, 0, 0, 0, 0, 0, 0x40, 0, 0, 0, 0, 0, 0, 0]

/-- The first 40 bytes of an IPv6 packet: version nibble 6, next header TCP. -/
def ipv6_header : List Nat :=
  [0x60, 0, 0, 0, 0, 20, 6, 64] ++ List.replicate 32 0

/-- A valid request: the value of `struct profinet_request` held in `request_bytes`. -/
def sample_request : profinet_request where
  iso := { prot := 3, ch1 := 0, ch2 := 0, len := 28, xxxx1 := 2, func := 0xF0, xxxx2 := 0x80 }
  ibh := { channel := 7, len := 0, seq := 5, sflags := 1, rflags := 2 }
  prefix_ := 0x1234
  unknown1 := 0
  read_size := 4
  read_length := 8
  db_num := 1
  area_code := 0x84
  start_addr := 0
  start_addr_2 := 0x100

/-- A 20-byte IPv4 header, version 4, protocol 6 (TCP), whose header-length field is 0. -/
def zero_ihl_packet : List Nat :=
  [0x40, 0, 0, 0, 0, 0, 0, 0, 0, 6, 0, 0, 0, 0, 0, 0, 0, 0, 0, 0]

/-- A 40-byte IPv4 packet: a 20-byte header, version 4, header-length field 5, protocol 6
(TCP), followed by 20 bytes that are zero. -/
def plain_ip_packet : List Nat :=
  [0x45, 0, 0, 40, 0, 0, 0, 0, 64, 6, 0, 0, 10, 0, 0, 1, 10, 0, 0, 2] ++ List.replicate 20 0

/-- The 14 bytes of an Ethernet header with the given protocol type, followed by zeros. -/
def eth_frame (eth_proto : Nat) : List Nat :=
  [0, 0, 0, 0, 0, 1, 0, 0, 0, 0, 0, 2, eth_proto / 256, eth_proto % 256]

/-- A 47-byte TCP segment from port 50 to port 102 with a 20-byte header: the payload is
the valid request without its last byte, 27 bytes. -/
def short_payload_segment : List Nat := tcp_header 50 102 ++ request_bytes.take 27

/-- A 28-byte payload laid out without padding: the 7-byte outer header (protocol-id 0x03,
length 28, function 0xF0) directly followed by the inner block header, so that the channel
id 7 sits in bytes 7 and 8. -/
def packed_request_bytes : List Nat :=
  [3, 0, 0, 28, 2, 0xF0, 0x80, 7, 0, 0, 5, 1, 0, 2, 0, 0x34, 0x12, 0, 4, 8, 0, 1, 0, 0x84, 0,
   0, 1, 0]

/-- A 20-byte IPv4 header, version 4, header-length field 5, protocol 17 (UDP). -/
def udp_packet : List Nat :=
  [0x45, 0, 0, 20, 0, 0, 0, 0, 64, 17, 0, 0, 10, 0, 0, 1, 10, 0, 0, 2]

/-- An 82-byte Ethernet frame: a 14-byte Ethernet header with the IPv4 type code, a 20-byte
IPv4 header (version 4, header-length field 5, protocol TCP), and the 48-byte TCP segment from
port 4000 to port 102 carrying the valid request. -/
def request_frame : List Nat :=
  eth_frame 0x0800 ++
  [0x45, 0, 0, 68, 0, 0, 0, 0, 64, 6, 0, 0, 10, 0, 0, 1, 10, 0, 0, 2] ++
  request_segment 4000 102

/-! ## Sequencing lemmas -/

theorem Exec.bind_eq {α β : Type} (m : Exec α) (f : α → Exec β) :
    (m >>= f) = Exec.bind m f := rfl

theorem Exec.pure_eq {α : Type} (a : α) : (pure a : Exec α) = ⟨[], .returned a⟩ := rfl

theorem Exec.bind_returned {α β : Type} (t : List Event) (x : α) (f : α → Exec β) :
    Exec.bind ⟨t, .returned x⟩ f = (f x).after t := rfl

theorem Exec.bind_aborted {α β : Type} (t : List Event) (a : Assertion) (f : α → Exec β) :
    Exec.bind ⟨t, .aborted a⟩ f = ⟨t, .aborted a⟩ := rfl

theorem Exec.bind_ite {α β : Type} (c : Prop) [Decidable c] (x y : Exec α)
    (f : α → Exec β) :
    Exec.bind (if c then x else y) f = if c then Exec.bind x f else Exec.bind y f := by
  split <;> rfl

theorem Exec.after_mk {α : Type} (t u : List Event) (o : Outcome α) :
    Exec.after ⟨u, o⟩ t = ⟨t ++ u, o⟩ := rfl

theorem Exec.after_after {α : Type} (t u : List Event) (e : Exec α) :
    (e.after u).after t = e.after (t ++ u) := by
  simp [Exec.after]

theorem Exec.after_ite {α : Type} (c : Prop) [Decidable c] (x y : Exec α) (t : List Event) :
    Exec.after (if c then x else y) t = if c then x.after t else y.after t := by
  split <;> rfl

/-! ## The layout of `struct profinet_request` -/

theorem offsets_eq :
    offsetof_ibh_sflags = 4 ∧ offsetof_ibh_rflags = 6 ∧ sizeof_profinet_ibh_header = 8 ∧
    offsetof_request_ibh = 8 ∧ offsetof_request_prefix_ = 16 ∧ offsetof_request_unknown1 = 18 ∧
    offsetof_request_read_size = 19 ∧ offsetof_request_read_length = 20 ∧
    offsetof_request_db_num = 22 ∧ offsetof_request_area_code = 24 ∧
    offsetof_request_start_addr = 25 ∧ offsetof_request_start_addr_2 = 26 ∧
    sizeof_profinet_request = 28 := by decide

/-! ## Each function as a case distinction on what it reads -/

theorem dump_profinet_iso_header_eq (mem : Mem) (h : Nat) (len : Int) :
    dump_profinet_iso_header mem h len =
      if mem8 mem h = 3 then
        if mem8 mem (h + 5) = 0xf0 then
          ⟨iso_trace_func mem h len ++ [.print .iso_function_pdu_transport], .returned ()⟩
        else if mem8 mem (h + 5) = 0xe0 then
          ⟨iso_trace_func mem h len ++ [.print .iso_function_connect], .returned ()⟩
        else
          ⟨iso_trace_func mem h len ++
            [.load (h + 5) 1, .print (.iso_function_unknown (mem8 mem (h + 5)))],
            .aborted .iso_func⟩
      else ⟨iso_trace_prot mem h len, .aborted .iso_prot⟩ := by
  simp only [dump_profinet_iso_header, Exec.bind_eq, Exec.pure_eq, enter, printf, assert,
    load8, Exec.bind_returned, Exec.bind_aborted, Exec.bind_ite, Exec.after_mk, Exec.after_ite,
    iso_trace_func, iso_trace_prot, offsetof_iso_prot, offsetof_iso_len, offsetof_iso_func,
    PROFINET_ISO_PROTOCOL, PROFINET_ISO_FUNCTION_PDU_TRANSPORT, PROFINET_ISO_FUNCTION_CONNECT]
  split_ifs <;> simp_all

theorem dump_profinet_ibh_header_eq (mem : Mem) (ibh : Nat) :
    dump_profinet_ibh_header mem ibh = ⟨ibh_trace mem ibh, .returned ()⟩ := by
  simp [dump_profinet_ibh_header, Exec.bind_eq, enter, printf, load8, load16,
    Exec.bind_returned, Exec.after_mk, ibh_trace, offsetof_ibh_channel, offsetof_ibh_len,
    offsetof_ibh_seq, offsets_eq]

theorem dump_profinet_request_eq (mem : Mem) (r : Nat) (len : Int) :
    dump_profinet_request mem r len =
      Exec.after (if mem8 mem r = 3 then
        if mem8 mem (r + 5) = 0xf0 ∨ mem8 mem (r + 5) = 0xe0 then
          if mem16 mem (r + 8) = 7 then
            if (mem8 mem (r + 3) : Int) = len then
              ⟨(dump_profinet_iso_header mem r len).trace ++ ibh_trace mem (r + 8) ++
                body_trace mem r ++ [.load (r + 3) 1], .returned ()⟩
            else
              ⟨(dump_profinet_iso_header mem r len).trace ++ ibh_trace mem (r + 8) ++
                body_trace mem r ++ [.load (r + 3) 1], .aborted .iso_len⟩
          else
            ⟨(dump_profinet_iso_header mem r len).trace ++ ibh_trace mem (r + 8) ++
              body_trace mem r, .aborted .ibh_channel⟩
        else
          ⟨iso_trace_func mem r len ++
            [.load (r + 5) 1, .print (.iso_function_unknown (mem8 mem (r + 5)))],
            .aborted .iso_func⟩
      else ⟨iso_trace_prot mem r len, .aborted .iso_prot⟩)
        [.call .dump_profinet_request r (some len)] := by
  simp only [dump_profinet_request, dump_profinet_ibh_header_eq, Exec.bind_eq, enter, printf,
    assert, load8, load16, Exec.bind_returned, Exec.bind_aborted, Exec.bind_ite, Exec.after_mk,
    Exec.after_ite, offsets_eq, offsetof_request_iso, offsetof_ibh_channel, offsetof_iso_len,
    Nat.add_zero, body_trace]
  rw [dump_profinet_iso_header_eq]
  split_ifs <;> simp_all [Exec.bind, Exec.after]

theorem pcap_parse_profinet_request_eq (user : Nat) (mem : Mem) (bytes : Nat) (len : Int) :
    pcap_parse_profinet_request user mem bytes len =
      (dump_profinet_request mem bytes len).after
        [.call .pcap_parse_profinet_request bytes (some len), .print .request_banner] := by
  simp [pcap_parse_profinet_request, Exec.bind_eq, enter, printf, Exec.bind_returned,
    Exec.after_after]

theorem pcap_parse_profinet_response_eq (user : Nat) (mem : Mem) (bytes : Nat) (len : Int) :
    pcap_parse_profinet_response user mem bytes len =
      (dump_profinet_request mem bytes len).after
        [.call .pcap_parse_profinet_response bytes (some len), .print .response_banner] := by
  simp [pcap_parse_profinet_response, Exec.bind_eq, enter, printf, Exec.bind_returned,
    Exec.after_after]

theorem pcap_parse_tcp_eq (mem : Mem) (bytes : Nat) (len : Int) :
    pcap_parse_tcp NULL mem bytes len =
      Exec.after
        (if to_size_t len < sizeof_tcphdr then ⟨[], .returned ()⟩
         else Exec.after
          (if to_size_t (tcp_hdr_len mem bytes : Nat) ≥ sizeof_tcphdr then
            if to_size_t (tcp_payload_len mem bytes len) < sizeof_profinet_request then
              ⟨[], .returned ()⟩
            else if tcp_dst_port mem bytes = PROFINET_PORT then
              pcap_parse_profinet_request NULL mem (bytes + tcp_hdr_len mem bytes)
                (tcp_payload_len mem bytes len)
            else if tcp_src_port mem bytes = PROFINET_PORT then
              pcap_parse_profinet_response NULL mem (bytes + tcp_hdr_len mem bytes)
                (tcp_payload_len mem bytes len)
            else
              ⟨[.print (.unknown_connection (tcp_dst_port mem bytes) (tcp_src_port mem bytes))],
                .returned ()⟩
           else ⟨[], .aborted .tcp_hdr_len⟩)
          [.load (bytes + 2) 2, .load bytes 2, .load (bytes + 12) 1])
        [.call .pcap_parse_tcp bytes (some len)] := by
  simp only [pcap_parse_tcp, Exec.bind_eq, Exec.pure_eq, enter, printf, assert, load16_ntohs,
    load_hi4, Exec.bind_returned, Exec.bind_aborted, Exec.bind_ite, Exec.after_mk,
    Exec.after_ite, Exec.after_after, tcp_hdr_len, tcp_doff, tcp_payload_len, tcp_dst_port,
    tcp_src_port, offsetof_tcphdr_dest, offsetof_tcphdr_source, offsetof_tcphdr_doff,
    Nat.add_zero]
  simp

theorem pcap_parse_ip4_eq (mem : Mem) (bytes : Nat) (len : Int) :
    pcap_parse_ip4 NULL mem bytes len =
      Exec.after
        (if to_size_t len < sizeof_iphdr then ⟨[], .returned ()⟩
         else if ip_version mem bytes = 4 then
           Exec.after
            (if ip_protocol mem bytes = IPPROTO_TCP then
              pcap_parse_tcp NULL mem (bytes + ip_ihl mem bytes * 4)
                (to_int (len - (ip_ihl mem bytes * 4 : Nat)))
             else ⟨[.print (.unknown_ip_protocol (ip_protocol mem bytes))], .returned ()⟩)
            [.load bytes 1, .load (bytes + 9) 1, .load bytes 1]
         else ⟨[.load bytes 1], .aborted .ip4_version⟩)
        [.call .pcap_parse_ip4 bytes (some len)] := by
  have h : ∀ x : Nat, x % 16 * 4 % 256 = x % 16 * 4 := by intro x; omega
  simp only [pcap_parse_ip4, Exec.bind_eq, Exec.pure_eq, enter, printf, assert, load8,
    load_hi4, load_lo4, Exec.bind_returned, Exec.bind_aborted, Exec.bind_ite, Exec.after_mk,
    Exec.after_ite, Exec.after_after, ip_version, ip_ihl, ip_protocol, h,
    offsetof_iphdr_version_ihl, offsetof_iphdr_protocol, Nat.add_zero]
  simp

theorem pcap_callback_eq (mem : Mem) (caplen bytes : Nat) :
    pcap_callback NULL mem caplen bytes =
      Exec.after
        (if caplen < sizeof_ethhdr then ⟨[], .returned ()⟩
         else Exec.after
          (if mem16be mem (bytes + 12) = ETH_P_IP then
            pcap_parse_ip4 NULL mem (bytes + sizeof_ethhdr)
              (to_int ((caplen : Int) - sizeof_ethhdr))
           else if mem16be mem (bytes + 12) = ETH_P_ARP then ⟨[], .returned ()⟩
           else ⟨[.print (.unknown_ethernet_protocol (mem16be mem (bytes + 12)))],
             .returned ()⟩)
          [.load (bytes + 12) 2])
        [.call .pcap_callback bytes (some caplen)] := by
  simp only [pcap_callback, Exec.bind_eq, Exec.pure_eq, enter, printf, assert, load16_ntohs,
    Exec.bind_returned, Exec.bind_aborted, Exec.bind_ite, Exec.after_mk, Exec.after_ite,
    Exec.after_after, offsetof_ethhdr_h_proto]
  simp

/-! ## Integer conversions -/

theorem to_size_t_of_nonneg (x : Int) (h0 : 0 ≤ x) (h1 : is_int x) : to_size_t x = x.toNat := by
  unfold to_size_t; unfold is_int at h1; omega

theorem to_int_of_is_int (x : Int) (h : is_int x) : to_int x = x := by
  unfold to_int; unfold is_int at h; omega

theorem tcp_hdr_len_le (mem : Mem) (bytes : Nat) : tcp_hdr_len mem bytes ≤ 60 := by
  unfold tcp_hdr_len tcp_doff mem8; omega

/-! ## Observations of the decoder -/

theorem Exec.lines_after {α : Type} (e : Exec α) (t : List Event) :
    (e.after t).lines = (Exec.mk t e.outcome).lines ++ e.lines := by
  simp [Exec.after, Exec.lines]

theorem Exec.entered_after {α : Type} (e : Exec α) (t : List Event) :
    (e.after t).entered = (Exec.mk t e.outcome).entered ++ e.entered := by
  simp [Exec.after, Exec.entered, Exec.calls]

theorem Exec.outcome_after {α : Type} (e : Exec α) (t : List Event) :
    (e.after t).outcome = e.outcome := rfl

theorem dump_profinet_request_outcome (mem : Mem) (r : Nat) (len : Int) :
    (dump_profinet_request mem r len).outcome =
      if mem8 mem r = 3 then
        if mem8 mem (r + 5) = 0xf0 ∨ mem8 mem (r + 5) = 0xe0 then
          if mem16 mem (r + 8) = 7 then
            if (mem8 mem (r + 3) : Int) = len then .returned () else .aborted .iso_len
          else .aborted .ibh_channel
        else .aborted .iso_func
      else .aborted .iso_prot := by
  rw [dump_profinet_request_eq, Exec.outcome_after]
  split_ifs <;> rfl

theorem deref_request_fields (mem : Mem) (r : Nat) :
    (deref_request mem r).iso.prot = mem8 mem r ∧
    (deref_request mem r).iso.len = mem8 mem (r + 3) ∧
    (deref_request mem r).iso.func = mem8 mem (r + 5) ∧
    (deref_request mem r).ibh.channel = mem16 mem (r + 8) ∧
    (deref_request mem r).ibh.len = mem8 mem (r + 10) ∧
    (deref_request mem r).ibh.seq = mem8 mem (r + 11) ∧
    (deref_request mem r).ibh.sflags = mem16 mem (r + 12) ∧
    (deref_request mem r).ibh.rflags = mem16 mem (r + 14) ∧
    (deref_request mem r).prefix_ = mem16 mem (r + 16) ∧
    (deref_request mem r).read_size = mem8 mem (r + 19) ∧
    (deref_request mem r).read_length = mem16 mem (r + 20) := by
  simp [deref_request, deref_iso_header, deref_ibh_header, offsets_eq, offsetof_request_iso,
    offsetof_iso_prot, offsetof_iso_len, offsetof_iso_func, offsetof_ibh_channel,
    offsetof_ibh_len, offsetof_ibh_seq, Nat.add_assoc]

theorem dump_profinet_request_valid_iff (mem : Mem) (r : Nat) (len : Int) :
    (dump_profinet_request mem r len).outcome = .returned () ↔
      request_valid (deref_request mem r) len := by
  rw [dump_profinet_request_outcome]
  simp only [request_valid, deref_request_fields]
  split_ifs <;> simp_all

theorem dump_profinet_request_lines (mem : Mem) (r : Nat) (len : Int)
    (h : request_valid (deref_request mem r) len) :
    (dump_profinet_request mem r len).lines = request_lines (deref_request mem r) len := by
  simp only [request_valid, deref_request_fields] at h
  obtain ⟨h1, h2, h3, h4⟩ := h
  rw [dump_profinet_request_eq, dump_profinet_iso_header_eq]
  simp only [request_lines, deref_request_fields]
  rcases h2 with h2 | h2 <;>
    simp [h1, h2, h3, h4, Exec.after, Exec.lines, iso_trace_func, iso_trace_prot, ibh_trace,
      body_trace, Nat.add_assoc]

theorem dump_profinet_request_entered (mem : Mem) (r : Nat) (len : Int)
    (h : request_valid (deref_request mem r) len) :
    (dump_profinet_request mem r len).entered =
      [.dump_profinet_request, .dump_profinet_iso_header, .dump_profinet_ibh_header] := by
  simp only [request_valid, deref_request_fields] at h
  obtain ⟨h1, h2, h3, h4⟩ := h
  rw [dump_profinet_request_eq, dump_profinet_iso_header_eq]
  rcases h2 with h2 | h2 <;>
    simp [h1, h2, h3, h4, Exec.after, Exec.entered, Exec.calls, iso_trace_func, iso_trace_prot,
      ibh_trace, body_trace]

theorem passes_size_gates_of_le (mem : Mem) (bytes : Nat) (len : Int) (hint : is_int len)
    (hh : 20 ≤ tcp_hdr_len mem bytes)
    (hp : (tcp_hdr_len mem bytes : Int) + sizeof_profinet_request ≤ len) :
    passes_size_gates mem bytes len ∧
      tcp_payload_len mem bytes len = len - (tcp_hdr_len mem bytes : Nat) := by
  have h60 := tcp_hdr_len_le mem bytes
  have hs : sizeof_profinet_request = 28 := by decide
  unfold passes_size_gates tcp_payload_len to_size_t to_int sizeof_tcphdr
  unfold is_int at hint
  rw [hs] at hp ⊢
  omega

/-! ## Reading back what was written -/

theorem mem8_store8 (mem : Mem) (a v b : Nat) :
    mem8 (store8 mem a v) b = if b = a then v % 256 else mem8 mem b := by
  unfold mem8 store8
  split <;> simp

theorem mem8_store16 (mem : Mem) (a v b : Nat) :
    mem8 (store16 mem a v) b =
      if b = a + 1 then v / 256 % 256 else if b = a then v % 256 else mem8 mem b := by
  unfold store16
  rw [mem8_store8, mem8_store8]
  simp

theorem deref_write_request (mem : Mem) (r : Nat) (q : profinet_request)
    (h : request_in_range q) : deref_request (write_request mem r q) r = q := by
  obtain ⟨h1, h2, h3, h4, h5, h6, h7, h8, h9, h10, h11, h12, h13, h14, h15, h16, h17, h18,
    h19, h20⟩ := h
  obtain ⟨⟨prot, ch1, ch2, len, xxxx1, func, xxxx2⟩, ⟨channel, ilen, seq, sflags, rflags⟩,
    pre, unknown1, read_size, read_length, db_num, area_code, start_addr, start_addr_2⟩ := q
  simp only at h1 h2 h3 h4 h5 h6 h7 h8 h9 h10 h11 h12 h13 h14 h15 h16 h17 h18 h19 h20
  simp only [deref_request, deref_iso_header, deref_ibh_header, write_request, mem16,
    mem8_store8, mem8_store16, offsets_eq, offsetof_request_iso, offsetof_iso_prot,
    offsetof_iso_ch1, offsetof_iso_ch2, offsetof_iso_len, offsetof_iso_xxxx1,
    offsetof_iso_func, offsetof_iso_xxxx2, offsetof_ibh_channel, offsetof_ibh_len,
    offsetof_ibh_seq, Nat.add_assoc, Nat.add_zero, Nat.reduceAdd, Nat.add_left_cancel_iff,
    Nat.reduceEqDiff, if_true, if_false, self_eq_add_right, OfNat.ofNat_ne_zero,
    profinet_request.mk.injEq, profinet_iso_header.mk.injEq, profinet_ibh_header.mk.injEq]
  omega

/-! ## Which decoder a segment is handed to -/

theorem Exec.entered_mk_nil {α : Type} (o : Outcome α) : (Exec.mk [] o).entered = [] := rfl

theorem Exec.entered_mk_call {α : Type} (f : Func) (p : Nat) (n : Option Int) (t : List Event)
    (o : Outcome α) : (Exec.mk (.call f p n :: t) o).entered = f :: (Exec.mk t o).entered := rfl

theorem Exec.entered_mk_load {α : Type} (a w : Nat) (t : List Event) (o : Outcome α) :
    (Exec.mk (.load a w :: t) o).entered = (Exec.mk t o).entered := rfl

theorem Exec.entered_mk_print {α : Type} (l : Line) (t : List Event) (o : Outcome α) :
    (Exec.mk (.print l :: t) o).entered = (Exec.mk t o).entered := rfl

theorem dump_profinet_request_entered_subset (mem : Mem) (r : Nat) (len : Int) (f : Func)
    (h : f ∈ (dump_profinet_request mem r len).entered) :
    f = .dump_profinet_request ∨ f = .dump_profinet_iso_header ∨
      f = .dump_profinet_ibh_header := by
  rw [dump_profinet_request_eq, dump_profinet_iso_header_eq] at h
  revert h
  split_ifs <;>
    simp [Exec.after, Exec.entered, Exec.calls, iso_trace_func, iso_trace_prot, ibh_trace,
      body_trace] <;> aesop

theorem classified_iff (mem : Mem) (bytes : Nat) (len : Int)
    (hgates : passes_size_gates mem bytes len) :
    (classified_request (pcap_parse_tcp NULL mem bytes len) ↔ tcp_dst_port mem bytes = 102) ∧
    (classified_response (pcap_parse_tcp NULL mem bytes len) ↔
      tcp_src_port mem bytes = 102 ∧ tcp_dst_port mem bytes ≠ 102) := by
  obtain ⟨g1, g2, g3⟩ := hgates
  have hreq : ∀ p n, Func.pcap_parse_profinet_request ∉ (dump_profinet_request mem p n).entered :=
    fun p n h => by
      have := dump_profinet_request_entered_subset mem p n _ h
      simp at this
  have hresp : ∀ p n,
      Func.pcap_parse_profinet_response ∉ (dump_profinet_request mem p n).entered :=
    fun p n h => by
      have := dump_profinet_request_entered_subset mem p n _ h
      simp at this
  unfold classified_request classified_response
  rw [pcap_parse_tcp_eq, if_neg g1, if_pos g2, if_neg g3]
  simp only [PROFINET_PORT]
  by_cases hd : tcp_dst_port mem bytes = 102
  · rw [if_pos hd, pcap_parse_profinet_request_eq]
    simp [Exec.entered_after, Exec.entered_mk_call, Exec.entered_mk_load,
      Exec.entered_mk_print, Exec.entered_mk_nil, hd, hresp]
  · by_cases hs : tcp_src_port mem bytes = 102
    · rw [if_neg hd, if_pos hs, pcap_parse_profinet_response_eq]
      simp [Exec.entered_after, Exec.entered_mk_call, Exec.entered_mk_load,
        Exec.entered_mk_print, Exec.entered_mk_nil, hd, hs, hreq]
    · rw [if_neg hd, if_neg hs]
      simp [Exec.entered_after, Exec.entered_mk_call, Exec.entered_mk_load,
        Exec.entered_mk_print, Exec.entered_mk_nil, hd, hs]

theorem pcap_parse_tcp_quiet (mem : Mem) (bytes : Nat) (len : Int)
    (h : tcp_hdr_len mem bytes < 20) :
    (pcap_parse_tcp NULL mem bytes len).entered = [.pcap_parse_tcp] ∧
    (pcap_parse_tcp NULL mem bytes len).lines = [] := by
  have h2 : ¬ to_size_t (tcp_hdr_len mem bytes : Nat) ≥ sizeof_tcphdr := by
    unfold to_size_t sizeof_tcphdr; omega
  rw [pcap_parse_tcp_eq, if_neg h2]
  split_ifs <;> exact ⟨rfl, rfl⟩

theorem pcap_parse_tcp_short (mem : Mem) (bytes : Nat) (len : Int) (h0 : 0 ≤ len)
    (h1 : len < 20) :
    pcap_parse_tcp NULL mem bytes len =
      ⟨[.call .pcap_parse_tcp bytes (some len)], .returned ()⟩ := by
  have h : to_size_t len < sizeof_tcphdr := by
    unfold to_size_t sizeof_tcphdr; omega
  rw [pcap_parse_tcp_eq, if_pos h]
  rfl

/-! ## What `pcap_parse_ip4` and `pcap_callback` delegate -/

theorem ip_ihl_le (mem : Mem) (bytes : Nat) : ip_ihl mem bytes * 4 ≤ 60 := by
  unfold ip_ihl; omega

theorem pcap_parse_ip4_delegates (mem : Mem) (bytes : Nat) (len : Int)
    (h : Func.pcap_parse_tcp ∈ (pcap_parse_ip4 NULL mem bytes len).entered) :
    ¬ to_size_t len < sizeof_iphdr ∧ ip_version mem bytes = 4 ∧
      ip_protocol mem bytes = IPPROTO_TCP := by
  rw [pcap_parse_ip4_eq] at h
  by_cases h1 : to_size_t len < sizeof_iphdr
  · rw [if_pos h1] at h
    simp [Exec.after, Exec.entered, Exec.calls] at h
  · by_cases h2 : ip_version mem bytes = 4
    · by_cases h3 : ip_protocol mem bytes = IPPROTO_TCP
      · exact ⟨h1, h2, h3⟩
      · rw [if_neg h1, if_pos h2, if_neg h3] at h
        simp [Exec.after, Exec.entered, Exec.calls] at h
    · rw [if_neg h1, if_neg h2] at h
      simp [Exec.after, Exec.entered, Exec.calls] at h

theorem dump_profinet_request_ibh_call (mem : Mem) (r : Nat) (len : Int) (p : Nat)
    (n : Option Int)
    (h : (Func.dump_profinet_ibh_header, p, n) ∈ (dump_profinet_request mem r len).calls) :
    p = r + 8 ∧ n = none := by
  rw [dump_profinet_request_eq, dump_profinet_iso_header_eq] at h
  revert h
  split_ifs <;>
    simp [Exec.after, Exec.calls, iso_trace_func, iso_trace_prot, ibh_trace, body_trace]

/-! ## Runs that complete a decode -/

theorem Exec.loads_after {α : Type} (e : Exec α) (t : List Event) :
    (e.after t).loads = (Exec.mk t e.outcome).loads ++ e.loads := by
  simp [Exec.after, Exec.loads]

theorem dump_profinet_request_loads (mem : Mem) (r : Nat) (len : Int) (a w : Nat)
    (h : (a, w) ∈ (dump_profinet_request mem r len).loads) :
    r ≤ a ∧ a + w ≤ r + 22 := by
  rw [dump_profinet_request_eq, dump_profinet_iso_header_eq] at h
  split_ifs at h <;>
    simp [Exec.after, Exec.loads, iso_trace_func, iso_trace_prot, ibh_trace, body_trace]
      at h <;> omega

theorem dump_profinet_request_returned_len (mem : Mem) (r : Nat) (len : Int)
    (h : (dump_profinet_request mem r len).outcome = .returned ()) : 0 ≤ len ∧ len ≤ 255 := by
  have hv := (dump_profinet_request_valid_iff mem r len).1 h
  obtain ⟨_, _, _, h4⟩ := hv
  rw [(deref_request_fields mem r).2.1] at h4
  have : mem8 mem (r + 3) < 256 := by unfold mem8; omega
  omega

theorem pcap_parse_tcp_not_classified (mem : Mem) (bytes : Nat) (len : Int)
    (h : ¬ passes_size_gates mem bytes len) :
    (pcap_parse_tcp NULL mem bytes len).entered = [.pcap_parse_tcp] := by
  unfold passes_size_gates at h
  rw [pcap_parse_tcp_eq]
  by_cases g1 : to_size_t len < sizeof_tcphdr
  · rw [if_pos g1]; rfl
  · by_cases g2 : to_size_t (tcp_hdr_len mem bytes : Nat) ≥ sizeof_tcphdr
    · by_cases g3 : to_size_t (tcp_payload_len mem bytes len) < sizeof_profinet_request
      · rw [if_neg g1, if_pos g2, if_pos g3]; rfl
      · exact absurd ⟨g1, g2, g3⟩ h
    · rw [if_neg g1, if_neg g2]; rfl

theorem pcap_parse_tcp_decoded (mem : Mem) (bytes : Nat) (len : Int)
    (hdec : classified_request (pcap_parse_tcp NULL mem bytes len) ∨
      classified_response (pcap_parse_tcp NULL mem bytes len))
    (hok : (pcap_parse_tcp NULL mem bytes len).outcome = .returned ()) :
    ¬ to_size_t len < sizeof_tcphdr ∧ 20 ≤ tcp_hdr_len mem bytes ∧
      28 ≤ tcp_payload_len mem bytes len ∧ tcp_payload_len mem bytes len ≤ 255 := by
  have hg : passes_size_gates mem bytes len := by
    by_contra hn
    have he := pcap_parse_tcp_not_classified mem bytes len hn
    unfold classified_request classified_response at hdec
    rw [he] at hdec
    simp at hdec
  obtain ⟨hreq, hresp⟩ := classified_iff mem bytes len hg
  obtain ⟨g1, g2, g3⟩ := hg
  have hd : (dump_profinet_request mem (bytes + tcp_hdr_len mem bytes)
      (tcp_payload_len mem bytes len)).outcome = .returned () := by
    rw [pcap_parse_tcp_eq, if_neg g1, if_pos g2, if_neg g3] at hok
    rcases hdec with hdec | hdec
    · have hdst : tcp_dst_port mem bytes = PROFINET_PORT := hreq.1 hdec
      rw [if_pos hdst, pcap_parse_profinet_request_eq] at hok
      exact hok
    · obtain ⟨hsrc, hdst⟩ := hresp.1 hdec
      have hdst2 : ¬ tcp_dst_port mem bytes = PROFINET_PORT := hdst
      have hsrc2 : tcp_src_port mem bytes = PROFINET_PORT := hsrc
      rw [if_neg hdst2, if_pos hsrc2, pcap_parse_profinet_response_eq] at hok
      exact hok
  obtain ⟨h0, h255⟩ := dump_profinet_request_returned_len mem _ _ hd
  have hs : sizeof_profinet_request = 28 := by decide
  refine ⟨g1, ?_, ?_, h255⟩
  · unfold to_size_t sizeof_tcphdr at g2; omega
  · rw [hs] at g3; unfold to_size_t at g3; omega

theorem dump_profinet_request_not_classified (mem : Mem) (r : Nat) (len : Int) :
    Func.pcap_parse_profinet_request ∉ (dump_profinet_request mem r len).entered ∧
    Func.pcap_parse_profinet_response ∉ (dump_profinet_request mem r len).entered := by
  constructor <;> intro h <;>
    have := dump_profinet_request_entered_subset mem r len _ h <;> simp at this

theorem pcap_parse_tcp_loads (mem : Mem) (bytes : Nat) (len : Int) (a w : Nat)
    (h : (a, w) ∈ (pcap_parse_tcp NULL mem bytes len).loads) :
    (bytes ≤ a ∧ a + w ≤ bytes + 13) ∨
      (bytes + tcp_hdr_len mem bytes ≤ a ∧ a + w ≤ bytes + tcp_hdr_len mem bytes + 22) := by
  rw [pcap_parse_tcp_eq] at h
  split_ifs at h
  · simp [Exec.after, Exec.loads] at h
  · simp [Exec.after, Exec.loads] at h; omega
  · rw [pcap_parse_profinet_request_eq] at h
    simp only [Exec.loads_after, List.mem_append] at h
    rcases h with h | h | h | h
    · simp [Exec.loads] at h
    · simp [Exec.loads] at h; omega
    · simp [Exec.loads] at h
    · exact Or.inr (dump_profinet_request_loads mem _ _ a w h)
  · rw [pcap_parse_profinet_response_eq] at h
    simp only [Exec.loads_after, List.mem_append] at h
    rcases h with h | h | h | h
    · simp [Exec.loads] at h
    · simp [Exec.loads] at h; omega
    · simp [Exec.loads] at h
    · exact Or.inr (dump_profinet_request_loads mem _ _ a w h)
  · simp [Exec.after, Exec.loads] at h; omega
  · simp [Exec.after, Exec.loads] at h; omega

theorem pcap_parse_ip4_decoded (mem : Mem) (bytes : Nat) (len : Int)
    (hdec : classified_request (pcap_parse_ip4 NULL mem bytes len) ∨
      classified_response (pcap_parse_ip4 NULL mem bytes len))
    (hok : (pcap_parse_ip4 NULL mem bytes len).outcome = .returned ()) :
    ¬ to_size_t len < sizeof_iphdr ∧
    pcap_parse_ip4 NULL mem bytes len =
      (pcap_parse_tcp NULL mem (bytes + ip_ihl mem bytes * 4)
        (to_int (len - (ip_ihl mem bytes * 4 : Nat)))).after
        [.call .pcap_parse_ip4 bytes (some len), .load bytes 1, .load (bytes + 9) 1,
         .load bytes 1] ∧
    (classified_request (pcap_parse_tcp NULL mem (bytes + ip_ihl mem bytes * 4)
        (to_int (len - (ip_ihl mem bytes * 4 : Nat)))) ∨
      classified_response (pcap_parse_tcp NULL mem (bytes + ip_ihl mem bytes * 4)
        (to_int (len - (ip_ihl mem bytes * 4 : Nat))))) ∧
    (pcap_parse_tcp NULL mem (bytes + ip_ihl mem bytes * 4)
      (to_int (len - (ip_ihl mem bytes * 4 : Nat)))).outcome = .returned () := by
  unfold classified_request classified_response at hdec ⊢
  rw [pcap_parse_ip4_eq] at hdec hok ⊢
  by_cases h1 : to_size_t len < sizeof_iphdr
  · rw [if_pos h1] at hdec
    simp [Exec.after, Exec.entered, Exec.calls] at hdec
  · by_cases h2 : ip_version mem bytes = 4
    · by_cases h3 : ip_protocol mem bytes = IPPROTO_TCP
      · rw [if_neg h1, if_pos h2, if_pos h3] at hdec hok ⊢
        refine ⟨h1, ?_, ?_, hok⟩
        · rw [Exec.after_after]; rfl
        · simpa [Exec.entered_after, Exec.entered_mk_call, Exec.entered_mk_load,
            Exec.entered_mk_nil] using hdec
      · rw [if_neg h1, if_pos h2, if_neg h3] at hdec
        simp [Exec.after, Exec.entered, Exec.calls] at hdec
    · rw [if_neg h1, if_neg h2] at hdec
      simp [Exec.after, Exec.entered, Exec.calls] at hdec

theorem pcap_callback_decoded (mem : Mem) (caplen bytes : Nat)
    (hdec : classified_request (pcap_callback NULL mem caplen bytes) ∨
      classified_response (pcap_callback NULL mem caplen bytes))
    (hok : (pcap_callback NULL mem caplen bytes).outcome = .returned ()) :
    14 ≤ caplen ∧
    pcap_callback NULL mem caplen bytes =
      (pcap_parse_ip4 NULL mem (bytes + 14) (to_int ((caplen : Int) - 14))).after
        [.call .pcap_callback bytes (some caplen), .load (bytes + 12) 2] ∧
    (classified_request (pcap_parse_ip4 NULL mem (bytes + 14) (to_int ((caplen : Int) - 14))) ∨
      classified_response
        (pcap_parse_ip4 NULL mem (bytes + 14) (to_int ((caplen : Int) - 14)))) ∧
    (pcap_parse_ip4 NULL mem (bytes + 14) (to_int ((caplen : Int) - 14))).outcome =
      .returned () := by
  unfold classified_request classified_response at hdec ⊢
  rw [pcap_callback_eq] at hdec hok ⊢
  by_cases h1 : caplen < sizeof_ethhdr
  · rw [if_pos h1] at hdec
    simp [Exec.after, Exec.entered, Exec.calls] at hdec
  · by_cases h2 : mem16be mem (bytes + 12) = ETH_P_IP
    · rw [if_neg h1, if_pos h2] at hdec hok ⊢
      refine ⟨by unfold sizeof_ethhdr at h1; omega, ?_, ?_, hok⟩
      · rw [Exec.after_after]; rfl
      · simpa [Exec.entered_after, Exec.entered_mk_call, Exec.entered_mk_load,
          Exec.entered_mk_nil] using hdec
    · rw [if_neg h1, if_neg h2] at hdec
      split_ifs at hdec <;> simp [Exec.after, Exec.entered, Exec.calls] at hdec

/-! ## The claims -/

/-- C1 (the code departs from the claim). `pcap_parse_tcp` is given the 20 captured bytes of a
TCP header whose data offset announces 60 bytes. Then `hdr_len = 60 >= 20` and
`payload_len = 20 - 60 = -40`, which is smaller than the request size 28, yet the segment is
not discarded: the payload is handed to `pcap_parse_profinet_request` at offset 60 with
length -40, the banner and a field are printed, and the run aborts on an assertion. -/
theorem C1_negative_payload_is_handed_onward :
    tcp_hdr_len (mem_of truncated_segment) 0 = 60 ∧
    tcp_payload_len (mem_of truncated_segment) 0 20 = -40 ∧
    (-40 : Int) < sizeof_profinet_request ∧
    pcap_parse_tcp NULL (mem_of truncated_segment) 0 20 =
      ⟨[.call .pcap_parse_tcp 0 (some 20), .load 2 2, .load 0 2, .load 12 1,
        .call .pcap_parse_profinet_request 60 (some (-40)), .print .request_banner,
        .call .dump_profinet_request 60 (some (-40)),
        .call .dump_profinet_iso_header 60 (some (-40)),
        .load 60 1, .print (.iso_protocol 0), .load 60 1],
       .aborted .iso_prot⟩ := by
  decide

/-- C2 (the code departs from the claim). `pcap_parse_ip4` is given a 20-byte IPv4 header
whose header-length field announces 60 bytes, so it calls `pcap_parse_tcp` with the length
`20 - 60 = -40 < 20`. The segment is not discarded: `pcap_parse_tcp` reads the ports and the
data offset (addresses 62, 60 and 72, past the 20 available bytes) and the run aborts on the
header-length assertion. -/
theorem C2_negative_length_is_not_discarded :
    (-40 : Int) < sizeof_tcphdr ∧
    pcap_parse_ip4 NULL (mem_of long_ihl_packet) 0 20 =
      ⟨[.call .pcap_parse_ip4 0 (some 20), .load 0 1, .load 9 1, .load 0 1,
        .call .pcap_parse_tcp 60 (some (-40)), .load 62 2, .load 60 2, .load 72 1],
       .aborted .tcp_hdr_len⟩ := by
  decide

/-- C3. The decoder `dump_profinet_request`, also when reached through
`pcap_parse_profinet_request` or `pcap_parse_profinet_response`, returns without a failed
assertion if and only if the protocol-id byte is 0x03, the function code is 0xF0 or 0xE0, the
channel id of the inner block header is 7 and the outer length field equals `len`. In
particular a segment with destination port 102 whose payload (at least the fixed request
size) satisfies the four conditions is decoded by the request decoder: the run returns, the
banner printed is the request banner, and the field dump carries the values of the payload. -/
theorem C3_decode_completes_iff_valid (mem : Mem) (bytes : Nat) (len : Int) (seg : Nat)
    (seglen : Int) :
    ((dump_profinet_request mem bytes len).outcome = .returned () ↔
      request_valid (deref_request mem bytes) len) ∧
    ((pcap_parse_profinet_request NULL mem bytes len).outcome = .returned () ↔
      request_valid (deref_request mem bytes) len) ∧
    ((pcap_parse_profinet_response NULL mem bytes len).outcome = .returned () ↔
      request_valid (deref_request mem bytes) len) ∧
    (is_int seglen → 20 ≤ tcp_hdr_len mem seg →
      (tcp_hdr_len mem seg : Int) + sizeof_profinet_request ≤ seglen →
      tcp_dst_port mem seg = 102 →
      request_valid (deref_request mem (seg + tcp_hdr_len mem seg))
        (seglen - (tcp_hdr_len mem seg : Nat)) →
      (pcap_parse_tcp NULL mem seg seglen).outcome = .returned () ∧
      (pcap_parse_tcp NULL mem seg seglen).entered =
        [.pcap_parse_tcp, .pcap_parse_profinet_request, .dump_profinet_request,
         .dump_profinet_iso_header, .dump_profinet_ibh_header] ∧
      (pcap_parse_tcp NULL mem seg seglen).lines =
        .request_banner :: request_lines (deref_request mem (seg + tcp_hdr_len mem seg))
          (seglen - (tcp_hdr_len mem seg : Nat))) := by
  refine ⟨dump_profinet_request_valid_iff mem bytes len, ?_, ?_, ?_⟩
  · rw [pcap_parse_profinet_request_eq, Exec.outcome_after]
    exact dump_profinet_request_valid_iff mem bytes len
  · rw [pcap_parse_profinet_response_eq, Exec.outcome_after]
    exact dump_profinet_request_valid_iff mem bytes len
  · intro hint hh hp hdst hv
    obtain ⟨⟨g1, g2, g3⟩, hpl⟩ := passes_size_gates_of_le mem seg seglen hint hh hp
    have hd : tcp_dst_port mem seg = PROFINET_PORT := hdst
    rw [pcap_parse_tcp_eq, if_neg g1, if_pos g2, if_neg g3, if_pos hd, hpl,
      pcap_parse_profinet_request_eq]
    refine ⟨?_, ?_, ?_⟩
    · simp only [Exec.outcome_after]
      exact (dump_profinet_request_valid_iff mem _ _).2 hv
    · simp only [Exec.entered_after, dump_profinet_request_entered mem _ _ hv]
      simp [Exec.entered, Exec.calls]
    · simp only [Exec.lines_after, dump_profinet_request_lines mem _ _ hv]
      simp [Exec.lines]

/-- Witness of C3: the 48-byte segment from port 50 to port 102 carrying the valid 28-byte
request. -/
theorem C3_decode_completes_iff_valid_witness :
    (pcap_parse_tcp NULL (mem_of (request_segment 50 102)) 0 48).outcome = .returned () ∧
    (pcap_parse_tcp NULL (mem_of (request_segment 50 102)) 0 48).entered =
      [.pcap_parse_tcp, .pcap_parse_profinet_request, .dump_profinet_request,
       .dump_profinet_iso_header, .dump_profinet_ibh_header] ∧
    (pcap_parse_tcp NULL (mem_of (request_segment 50 102)) 0 48).lines =
      [.request_banner, .iso_protocol 3, .iso_length 28 28, .iso_function_pdu_transport,
       .ibh_channel 7, .ibh_len 0, .ibh_seq 5, .ibh_sflags 1, .ibh_rflags 2,
       .request_prefix_ 0x1234, .request_read_size 4, .request_read_length 8] :=
  (C3_decode_completes_iff_valid (mem_of (request_segment 50 102)) 20 28 0 48).2.2.2
    (by decide) (by decide) (by decide) (by decide) (by decide)

/-- C4. Round trip. A request `q` whose members hold values of their types, with protocol-id
0x03, function code 0xF0 or 0xE0, channel id 7 and outer length equal to the length `len` of
the buffer, is written into memory at the layout of `struct profinet_request`. Then the value
the decoder overlays on that memory is `q`, member for member, the decode returns without a
failed assertion, and the field dump it prints carries the values of `q`. -/
theorem C4_round_trip (mem : Mem) (r : Nat) (q : profinet_request) (len : Int)
    (hrange : request_in_range q) (hprot : q.iso.prot = 0x03)
    (hfunc : q.iso.func = 0xF0 ∨ q.iso.func = 0xE0) (hchannel : q.ibh.channel = 7)
    (hlen : (q.iso.len : Int) = len) :
    deref_request (write_request mem r q) r = q ∧
    (pcap_parse_profinet_request NULL (write_request mem r q) r len).outcome = .returned () ∧
    (pcap_parse_profinet_request NULL (write_request mem r q) r len).lines =
      .request_banner :: request_lines q len := by
  have hd := deref_write_request mem r q hrange
  have hv : request_valid (deref_request (write_request mem r q) r) len := by
    rw [hd]; exact ⟨hprot, hfunc, hchannel, hlen⟩
  refine ⟨hd, ?_, ?_⟩
  · rw [pcap_parse_profinet_request_eq, Exec.outcome_after]
    exact (dump_profinet_request_valid_iff _ _ _).2 hv
  · rw [pcap_parse_profinet_request_eq, Exec.lines_after, dump_profinet_request_lines _ _ _ hv,
      hd]
    simp [Exec.lines]

/-- Witness of C4: the sample request written at address 0 and decoded with length 28. -/
theorem C4_round_trip_witness :
    deref_request (write_request (mem_of []) 0 sample_request) 0 = sample_request ∧
    (pcap_parse_profinet_request NULL (write_request (mem_of []) 0 sample_request) 0 28).outcome
      = .returned () ∧
    (pcap_parse_profinet_request NULL (write_request (mem_of []) 0 sample_request) 0 28).lines =
      [.request_banner, .iso_protocol 3, .iso_length 28 28, .iso_function_pdu_transport,
       .ibh_channel 7, .ibh_len 0, .ibh_seq 5, .ibh_sflags 1, .ibh_rflags 2,
       .request_prefix_ 0x1234, .request_read_size 4, .request_read_length 8] :=
  C4_round_trip (mem_of []) 0 sample_request 28 (by decide) (by decide) (by decide) (by decide)
    (by decide)

/-- C5. For a segment that passes the size gates of `pcap_parse_tcp`, what follows the reading
of the header is decided by the two ports alone: with destination port 102 the rest of the run
is the request decoder on the payload; with source port 102 and another destination port it is
the response decoder on the payload; with neither port 102 it is the one line
"Unknown connection" carrying the destination and the source port, and the function returns
without entering a decoder. -/
theorem C5_direction_from_ports (mem : Mem) (bytes : Nat) (len : Int)
    (hgates : passes_size_gates mem bytes len) :
    (tcp_dst_port mem bytes = 102 →
      pcap_parse_tcp NULL mem bytes len =
        (pcap_parse_profinet_request NULL mem (bytes + tcp_hdr_len mem bytes)
          (tcp_payload_len mem bytes len)).after
          [.call .pcap_parse_tcp bytes (some len), .load (bytes + 2) 2, .load bytes 2,
           .load (bytes + 12) 1]) ∧
    (tcp_src_port mem bytes = 102 → tcp_dst_port mem bytes ≠ 102 →
      pcap_parse_tcp NULL mem bytes len =
        (pcap_parse_profinet_response NULL mem (bytes + tcp_hdr_len mem bytes)
          (tcp_payload_len mem bytes len)).after
          [.call .pcap_parse_tcp bytes (some len), .load (bytes + 2) 2, .load bytes 2,
           .load (bytes + 12) 1]) ∧
    (tcp_src_port mem bytes ≠ 102 → tcp_dst_port mem bytes ≠ 102 →
      pcap_parse_tcp NULL mem bytes len =
        ⟨[.call .pcap_parse_tcp bytes (some len), .load (bytes + 2) 2, .load bytes 2,
          .load (bytes + 12) 1,
          .print (.unknown_connection (tcp_dst_port mem bytes) (tcp_src_port mem bytes))],
         .returned ()⟩) := by
  obtain ⟨g1, g2, g3⟩ := hgates
  rw [pcap_parse_tcp_eq, if_neg g1, if_pos g2, if_neg g3]
  refine ⟨?_, ?_, ?_⟩
  · intro hd
    have hd2 : tcp_dst_port mem bytes = PROFINET_PORT := hd
    rw [if_pos hd2, Exec.after_after]; rfl
  · intro hs hd
    have hs2 : tcp_src_port mem bytes = PROFINET_PORT := hs
    have hd2 : ¬ tcp_dst_port mem bytes = PROFINET_PORT := hd
    rw [if_neg hd2, if_pos hs2, Exec.after_after]; rfl
  · intro hs hd
    have hs2 : ¬ tcp_src_port mem bytes = PROFINET_PORT := hs
    have hd2 : ¬ tcp_dst_port mem bytes = PROFINET_PORT := hd
    rw [if_neg hd2, if_neg hs2]; rfl

/-- Witness of C5: a segment from port 4000 to port 5000. -/
theorem C5_direction_from_ports_witness :
    pcap_parse_tcp NULL (mem_of (request_segment 4000 5000)) 0 48 =
      ⟨[.call .pcap_parse_tcp 0 (some 48), .load 2 2, .load 0 2, .load 12 1,
        .print (.unknown_connection 5000 4000)], .returned ()⟩ :=
  (C5_direction_from_ports (mem_of (request_segment 4000 5000)) 0 48 (by decide)).2.2
    (by decide) (by decide)

/-- C6, amended. Take two segments that pass the size gates, the ports of the second being
the ports of the first swapped. If the first is classified as a request and its source port
is not 102, the second is classified as a response; if the first is classified as a response,
the second is classified as a request. -/
theorem C6_swap_of_ports (mem1 mem2 : Mem) (bytes1 bytes2 : Nat) (len1 len2 : Int)
    (hgates1 : passes_size_gates mem1 bytes1 len1)
    (hgates2 : passes_size_gates mem2 bytes2 len2)
    (hsrc : tcp_src_port mem2 bytes2 = tcp_dst_port mem1 bytes1)
    (hdst : tcp_dst_port mem2 bytes2 = tcp_src_port mem1 bytes1) :
    (classified_request (pcap_parse_tcp NULL mem1 bytes1 len1) →
      tcp_src_port mem1 bytes1 ≠ 102 →
      classified_response (pcap_parse_tcp NULL mem2 bytes2 len2)) ∧
    (classified_response (pcap_parse_tcp NULL mem1 bytes1 len1) →
      classified_request (pcap_parse_tcp NULL mem2 bytes2 len2)) := by
  have h1 := classified_iff mem1 bytes1 len1 hgates1
  have h2 := classified_iff mem2 bytes2 len2 hgates2
  rw [h1.1, h1.2, h2.1, h2.2, hsrc, hdst]
  exact ⟨fun a b => ⟨a, b⟩, fun a => a.1⟩

/-- Witness of C6: the request from port 4000 to port 102 and the segment from port 102 to
port 4000. -/
theorem C6_swap_of_ports_witness :
    classified_response (pcap_parse_tcp NULL (mem_of (request_segment 102 4000)) 0 48) :=
  (C6_swap_of_ports (mem_of (request_segment 4000 102)) (mem_of (request_segment 102 4000))
    0 0 48 48 (by decide) (by decide) (by decide) (by decide)).1 (by decide) (by decide)

/-- Counterexample to C6 as stated: a segment from port 102 to port 102 is classified as a
request, and the segment with the ports swapped, which is the same segment, is not classified
as a response. -/
theorem C6_swap_fails_when_both_ports_are_102 :
    passes_size_gates (mem_of (request_segment 102 102)) 0 48 ∧
    tcp_src_port (mem_of (request_segment 102 102)) 0 = 102 ∧
    tcp_dst_port (mem_of (request_segment 102 102)) 0 = 102 ∧
    classified_request (pcap_parse_tcp NULL (mem_of (request_segment 102 102)) 0 48) ∧
    ¬ classified_response (pcap_parse_tcp NULL (mem_of (request_segment 102 102)) 0 48) := by
  decide

/-- C7. When the protocol-id byte of the payload is not 0x03, whatever the other fields and
the length are, the decoder prints the protocol byte and aborts on the protocol-id assertion,
the first check of the chain. Nothing of the inner block header or of the request body is
loaded or printed. The same holds through `pcap_parse_profinet_request` and
`pcap_parse_profinet_response`, which print their banner first. -/
theorem C7_bad_protocol_id (mem : Mem) (bytes : Nat) (len : Int)
    (hprot : (deref_request mem bytes).iso.prot ≠ 0x03) :
    dump_profinet_request mem bytes len =
      ⟨[.call .dump_profinet_request bytes (some len),
        .call .dump_profinet_iso_header bytes (some len),
        .load bytes 1, .print (.iso_protocol (deref_request mem bytes).iso.prot),
        .load bytes 1],
       .aborted .iso_prot⟩ ∧
    pcap_parse_profinet_request NULL mem bytes len =
      ⟨[.call .pcap_parse_profinet_request bytes (some len), .print .request_banner,
        .call .dump_profinet_request bytes (some len),
        .call .dump_profinet_iso_header bytes (some len),
        .load bytes 1, .print (.iso_protocol (deref_request mem bytes).iso.prot),
        .load bytes 1],
       .aborted .iso_prot⟩ ∧
    pcap_parse_profinet_response NULL mem bytes len =
      ⟨[.call .pcap_parse_profinet_response bytes (some len), .print .response_banner,
        .call .dump_profinet_request bytes (some len),
        .call .dump_profinet_iso_header bytes (some len),
        .load bytes 1, .print (.iso_protocol (deref_request mem bytes).iso.prot),
        .load bytes 1],
       .aborted .iso_prot⟩ := by
  simp only [deref_request_fields] at hprot ⊢
  have h : dump_profinet_request mem bytes len =
      ⟨[.call .dump_profinet_request bytes (some len),
        .call .dump_profinet_iso_header bytes (some len),
        .load bytes 1, .print (.iso_protocol (mem8 mem bytes)), .load bytes 1],
       .aborted .iso_prot⟩ := by
    rw [dump_profinet_request_eq, if_neg hprot]
    rfl
  refine ⟨h, ?_, ?_⟩
  · rw [pcap_parse_profinet_request_eq, h]; rfl
  · rw [pcap_parse_profinet_response_eq, h]; rfl

/-- Witness of C7: the valid request with protocol-id byte 0xFF. -/
theorem C7_bad_protocol_id_witness :
    pcap_parse_profinet_request NULL (mem_of bad_protocol_bytes) 0 28 =
      ⟨[.call .pcap_parse_profinet_request 0 (some 28), .print .request_banner,
        .call .dump_profinet_request 0 (some 28), .call .dump_profinet_iso_header 0 (some 28),
        .load 0 1, .print (.iso_protocol 0xFF), .load 0 1],
       .aborted .iso_prot⟩ :=
  (C7_bad_protocol_id (mem_of bad_protocol_bytes) 0 28 (by decide)).2.1

/-- C8. When the protocol-id is 0x03 and the function code is neither 0xF0 nor 0xE0, the
decoder prints the unknown function code and aborts on the `assert(false)` of the `default`
case; the run ends inside `dump_profinet_iso_header`, before `dump_profinet_ibh_header` is
entered and before any byte of the inner block header is loaded. When the function code is
0xF0 or 0xE0 that assertion is never the one that fails. -/
theorem C8_unknown_function_code (mem : Mem) (bytes : Nat) (len : Int) :
    ((deref_request mem bytes).iso.prot = 0x03 →
      (deref_request mem bytes).iso.func ≠ 0xF0 → (deref_request mem bytes).iso.func ≠ 0xE0 →
      dump_profinet_request mem bytes len =
        ⟨[.call .dump_profinet_request bytes (some len),
          .call .dump_profinet_iso_header bytes (some len),
          .load bytes 1, .print (.iso_protocol 0x03), .load bytes 1,
          .load (bytes + 3) 1, .print (.iso_length (deref_request mem bytes).iso.len len),
          .load (bytes + 5) 1, .load (bytes + 5) 1,
          .print (.iso_function_unknown (deref_request mem bytes).iso.func)],
         .aborted .iso_func⟩) ∧
    ((deref_request mem bytes).iso.func = 0xF0 ∨ (deref_request mem bytes).iso.func = 0xE0 →
      (dump_profinet_iso_header mem bytes len).outcome ≠ .aborted .iso_func ∧
      (dump_profinet_request mem bytes len).outcome ≠ .aborted .iso_func) := by
  simp only [deref_request_fields]
  constructor
  · intro hp h1 h2
    have hf : ¬ (mem8 mem (bytes + 5) = 0xf0 ∨ mem8 mem (bytes + 5) = 0xe0) := by
      rintro (h | h)
      · exact h1 h
      · exact h2 h
    rw [dump_profinet_request_eq, if_pos hp, if_neg hf]
    simp [Exec.after, iso_trace_func, iso_trace_prot, hp]
  · intro hf
    constructor
    · rw [dump_profinet_iso_header_eq]
      rcases hf with hf | hf <;> split_ifs <;> simp_all
    · rw [dump_profinet_request_outcome, if_pos hf]
      split_ifs <;> simp

/-- Witness of C8: the valid request with function code 0x32. -/
theorem C8_unknown_function_code_witness :
    dump_profinet_request (mem_of unknown_function_bytes) 0 28 =
      ⟨[.call .dump_profinet_request 0 (some 28), .call .dump_profinet_iso_header 0 (some 28),
        .load 0 1, .print (.iso_protocol 0x03), .load 0 1,
        .load 3 1, .print (.iso_length 28 28), .load 5 1, .load 5 1,
        .print (.iso_function_unknown 0x32)],
       .aborted .iso_func⟩ :=
  (C8_unknown_function_code (mem_of unknown_function_bytes) 0 28).1 (by decide) (by decide)
    (by decide)

/-- C9. A segment of available length at least 20 whose header length `4 * doff` is below 20
makes `pcap_parse_tcp` abort on `assert(hdr_len >= sizeof(struct tcphdr))` right after the
three header fields are read: it is neither skipped nor decoded. And whenever a run of
`pcap_parse_tcp` enters another function or prints a line, the header length is at least
20. -/
theorem C9_short_header_length (mem : Mem) (bytes : Nat) (len : Int) :
    (is_int len → 20 ≤ len → tcp_hdr_len mem bytes < 20 →
      pcap_parse_tcp NULL mem bytes len =
        ⟨[.call .pcap_parse_tcp bytes (some len), .load (bytes + 2) 2, .load bytes 2,
          .load (bytes + 12) 1],
         .aborted .tcp_hdr_len⟩) ∧
    ((pcap_parse_tcp NULL mem bytes len).entered ≠ [.pcap_parse_tcp] ∨
      (pcap_parse_tcp NULL mem bytes len).lines ≠ [] →
      20 ≤ tcp_hdr_len mem bytes) := by
  constructor
  · intro hint hlen hh
    have h1 : ¬ to_size_t len < sizeof_tcphdr := by
      unfold to_size_t sizeof_tcphdr; unfold is_int at hint; omega
    have h2 : ¬ to_size_t (tcp_hdr_len mem bytes : Nat) ≥ sizeof_tcphdr := by
      unfold to_size_t sizeof_tcphdr; omega
    rw [pcap_parse_tcp_eq, if_neg h1, if_neg h2]
    rfl
  · intro h
    by_contra hh
    have hq := pcap_parse_tcp_quiet mem bytes len (by omega)
    rcases h with h | h
    · exact h hq.1
    · exact h hq.2

/-- Witness of C9: a 20-byte header with data offset 4. -/
theorem C9_short_header_length_witness :
    pcap_parse_tcp NULL (mem_of short_doff_header) 0 20 =
      ⟨[.call .pcap_parse_tcp 0 (some 20), .load 2 2, .load 0 2, .load 12 1],
       .aborted .tcp_hdr_len⟩ :=
  (C9_short_header_length (mem_of short_doff_header) 0 20).1 (by decide) (by decide)
    (by decide)

/-- C10, amended. When the version nibble is not 4 and at least 20 bytes are available,
`pcap_parse_ip4` aborts on `assert(iph->version == 4)` right after reading the version,
whatever the protocol and header-length fields hold. Whatever the available length,
`pcap_parse_tcp` is not entered. -/
theorem C10_version_is_checked (mem : Mem) (bytes : Nat) (len : Int)
    (hversion : ip_version mem bytes ≠ 4) :
    (is_int len → 20 ≤ len →
      pcap_parse_ip4 NULL mem bytes len =
        ⟨[.call .pcap_parse_ip4 bytes (some len), .load bytes 1], .aborted .ip4_version⟩) ∧
    Func.pcap_parse_tcp ∉ (pcap_parse_ip4 NULL mem bytes len).entered := by
  constructor
  · intro hint hlen
    have h1 : ¬ to_size_t len < sizeof_iphdr := by
      unfold to_size_t sizeof_iphdr; unfold is_int at hint; omega
    rw [pcap_parse_ip4_eq, if_neg h1, if_neg hversion]
    rfl
  · rw [pcap_parse_ip4_eq, if_neg hversion]
    split_ifs <;> simp [Exec.after, Exec.entered, Exec.calls]

/-- Witness of C10: the 40 bytes of an IPv6 header. -/
theorem C10_version_is_checked_witness :
    pcap_parse_ip4 NULL (mem_of ipv6_header) 0 40 =
      ⟨[.call .pcap_parse_ip4 0 (some 40), .load 0 1], .aborted .ip4_version⟩ :=
  (C10_version_is_checked (mem_of ipv6_header) 0 40 (by decide)).1 (by decide) (by decide)

/-- Counterexample to C10 as stated: with 19 bytes available and version nibble 6,
`pcap_parse_ip4` returns at the length check; no failure is reported. -/
theorem C10_short_packet_is_discarded_without_failure :
    ip_version (mem_of ipv6_header) 0 = 6 ∧
    pcap_parse_ip4 NULL (mem_of ipv6_header) 0 19 =
      ⟨[.call .pcap_parse_ip4 0 (some 19)], .returned ()⟩ := by
  decide

/-- C11, amended. Whenever `pcap_parse_ip4` enters the TCP decoder, the version is 4, the
protocol is TCP, and the TCP decoder runs on the buffer offset by the header length `ihl * 4`,
a multiple of 4 lying in [0, 60]: the header-length field is used as it is read, without a
check against the 20-byte minimum. -/
theorem C11_delegated_header (mem : Mem) (bytes : Nat) (len : Int)
    (hdelegates : Func.pcap_parse_tcp ∈ (pcap_parse_ip4 NULL mem bytes len).entered) :
    ip_version mem bytes = 4 ∧ ip_ihl mem bytes * 4 ≤ 60 ∧
    pcap_parse_ip4 NULL mem bytes len =
      (pcap_parse_tcp NULL mem (bytes + ip_ihl mem bytes * 4)
        (to_int (len - (ip_ihl mem bytes * 4 : Nat)))).after
        [.call .pcap_parse_ip4 bytes (some len), .load bytes 1, .load (bytes + 9) 1,
         .load bytes 1] := by
  obtain ⟨h1, h2, h3⟩ := pcap_parse_ip4_delegates mem bytes len hdelegates
  refine ⟨h2, ip_ihl_le mem bytes, ?_⟩
  rw [pcap_parse_ip4_eq, if_neg h1, if_pos h2, if_pos h3, Exec.after_after]
  rfl

/-- Witness of C11: a 40-byte IPv4 packet with header length 20. -/
theorem C11_delegated_header_witness :
    ip_version (mem_of plain_ip_packet) 0 = 4 ∧ ip_ihl (mem_of plain_ip_packet) 0 * 4 ≤ 60 ∧
    pcap_parse_ip4 NULL (mem_of plain_ip_packet) 0 40 =
      (pcap_parse_tcp NULL (mem_of plain_ip_packet) (0 + ip_ihl (mem_of plain_ip_packet) 0 * 4)
        (to_int (40 - (ip_ihl (mem_of plain_ip_packet) 0 * 4 : Nat)))).after
        [.call .pcap_parse_ip4 0 (some 40), .load 0 1, .load (0 + 9) 1, .load 0 1] :=
  C11_delegated_header (mem_of plain_ip_packet) 0 40 (by decide)

/-- Counterexample to C11 as stated: a 20-byte IPv4 header with version 4, protocol TCP and
header-length field 0 is accepted, and the TCP decoder is entered at offset 0 of the IPv4
header with the whole length 20. -/
theorem C11_zero_header_length_is_delegated :
    ip_version (mem_of zero_ihl_packet) 0 = 4 ∧
    ip_ihl (mem_of zero_ihl_packet) 0 * 4 = 0 ∧
    (pcap_parse_ip4 NULL (mem_of zero_ihl_packet) 0 20).calls =
      [(.pcap_parse_ip4, 0, some 20), (.pcap_parse_tcp, 0, some 20)] := by
  decide

/-- C12. A record whose captured length is below 14 is skipped by `pcap_callback`: the run
consists of the entry of `pcap_callback` alone and returns, so no byte is loaded, no other
function is entered, no line is printed and no assertion fails. -/
theorem C12_short_record_is_skipped (mem : Mem) (caplen bytes : Nat) (hshort : caplen < 14) :
    pcap_callback NULL mem caplen bytes =
      ⟨[.call .pcap_callback bytes (some caplen)], .returned ()⟩ := by
  have h : caplen < sizeof_ethhdr := hshort
  rw [pcap_callback_eq, if_pos h]
  rfl

/-- Witness of C12: a record of 13 captured bytes. -/
theorem C12_short_record_is_skipped_witness :
    pcap_callback NULL (mem_of (eth_frame 0x0800)) 13 0 =
      ⟨[.call .pcap_callback 0 (some 13)], .returned ()⟩ :=
  C12_short_record_is_skipped (mem_of (eth_frame 0x0800)) 13 0 (by decide)

/-- C13. For every record of captured length at least 14, `pcap_callback` routes on the
protocol type read big-endian from bytes 12 and 13. With the IPv4 code 0x0800 the rest of the
run is the IPv4 decoder on the buffer offset by 14 with length `caplen - 14`, the length
being passed in an `int`. With the ARP code 0x0806 nothing more happens: nothing is printed
and no decoder is entered. With any other value the one line naming the type is printed, no
decoder is entered, and the function returns. -/
theorem C13_routing_on_protocol_type (mem : Mem) (caplen bytes : Nat) (hlen : 14 ≤ caplen) :
    (256 * mem8 mem (bytes + 12) + mem8 mem (bytes + 13) = 0x0800 →
      is_int ((caplen : Int) - 14) →
      pcap_callback NULL mem caplen bytes =
        (pcap_parse_ip4 NULL mem (bytes + 14) ((caplen : Int) - 14)).after
          [.call .pcap_callback bytes (some caplen), .load (bytes + 12) 2]) ∧
    (256 * mem8 mem (bytes + 12) + mem8 mem (bytes + 13) = 0x0806 →
      pcap_callback NULL mem caplen bytes =
        ⟨[.call .pcap_callback bytes (some caplen), .load (bytes + 12) 2], .returned ()⟩) ∧
    (256 * mem8 mem (bytes + 12) + mem8 mem (bytes + 13) ≠ 0x0800 →
      256 * mem8 mem (bytes + 12) + mem8 mem (bytes + 13) ≠ 0x0806 →
      pcap_callback NULL mem caplen bytes =
        ⟨[.call .pcap_callback bytes (some caplen), .load (bytes + 12) 2,
          .print (.unknown_ethernet_protocol
            (256 * mem8 mem (bytes + 12) + mem8 mem (bytes + 13)))],
         .returned ()⟩) := by
  have h1 : ¬ caplen < sizeof_ethhdr := by unfold sizeof_ethhdr; omega
  have h3 : mem16be mem (bytes + 12) = 256 * mem8 mem (bytes + 12) + mem8 mem (bytes + 13) :=
    rfl
  rw [pcap_callback_eq, if_neg h1, ← h3]
  refine ⟨?_, ?_, ?_⟩
  · intro h hint
    have h2 : to_int ((caplen : Int) - sizeof_ethhdr) = (caplen : Int) - 14 :=
      to_int_of_is_int _ hint
    have h4 : mem16be mem (bytes + 12) = ETH_P_IP := h
    rw [if_pos h4, h2, Exec.after_after]; rfl
  · intro h
    have h4 : mem16be mem (bytes + 12) = ETH_P_ARP := h
    have h5 : ¬ mem16be mem (bytes + 12) = ETH_P_IP := by rw [h4]; decide
    rw [if_neg h5, if_pos h4]; rfl
  · intro h h'
    have h4 : ¬ mem16be mem (bytes + 12) = ETH_P_IP := h
    have h5 : ¬ mem16be mem (bytes + 12) = ETH_P_ARP := h'
    rw [if_neg h4, if_neg h5]; rfl

/-- Witness of C13: the 82-byte frame with the IPv4 type code; the IPv4 decoder receives the
buffer offset by 14 with length 68. -/
theorem C13_routing_on_protocol_type_witness :
    pcap_callback NULL (mem_of request_frame) 82 0 =
      (pcap_parse_ip4 NULL (mem_of request_frame) 14 68).after
        [.call .pcap_callback 0 (some 82), .load 12 2] :=
  (C13_routing_on_protocol_type (mem_of request_frame) 82 0 (by decide)).1 (by decide)
    (by decide)

/-- C14. Boundary of the payload gate of `pcap_parse_tcp`, for a header length of at least 20.
A payload of 27 bytes, one less than `sizeof(struct profinet_request) = 28`, is skipped: the
function returns after reading the header, entering no decoder, printing nothing and failing
no assertion. A payload of 28 bytes reaches the port dispatcher: with destination port 102
the rest of the run is the request decoder on the 28 bytes, with source port 102 and another
destination port it is the response decoder, and otherwise the line "Unknown connection". -/
theorem C14_payload_gate_boundary (mem : Mem) (bytes : Nat) (len : Int)
    (hhdr : 20 ≤ tcp_hdr_len mem bytes) :
    sizeof_profinet_request = 28 ∧
    (len = (tcp_hdr_len mem bytes : Int) + (sizeof_profinet_request - 1 : Nat) →
      pcap_parse_tcp NULL mem bytes len =
        ⟨[.call .pcap_parse_tcp bytes (some len), .load (bytes + 2) 2, .load bytes 2,
          .load (bytes + 12) 1],
         .returned ()⟩) ∧
    (len = (tcp_hdr_len mem bytes : Int) + (sizeof_profinet_request : Nat) →
      pcap_parse_tcp NULL mem bytes len =
        Exec.after
          (if tcp_dst_port mem bytes = 102 then
            pcap_parse_profinet_request NULL mem (bytes + tcp_hdr_len mem bytes)
              (sizeof_profinet_request : Nat)
           else if tcp_src_port mem bytes = 102 then
            pcap_parse_profinet_response NULL mem (bytes + tcp_hdr_len mem bytes)
              (sizeof_profinet_request : Nat)
           else
            ⟨[.print (.unknown_connection (tcp_dst_port mem bytes) (tcp_src_port mem bytes))],
              .returned ()⟩)
          [.call .pcap_parse_tcp bytes (some len), .load (bytes + 2) 2, .load bytes 2,
           .load (bytes + 12) 1]) := by
  have h60 := tcp_hdr_len_le mem bytes
  have hs : sizeof_profinet_request = 28 := by decide
  have g2 : to_size_t (tcp_hdr_len mem bytes : Nat) ≥ sizeof_tcphdr := by
    unfold to_size_t sizeof_tcphdr; omega
  refine ⟨hs, ?_, ?_⟩
  · intro hlen
    have g1 : ¬ to_size_t len < sizeof_tcphdr := by
      rw [hs] at hlen; unfold to_size_t sizeof_tcphdr; omega
    have g3 : to_size_t (tcp_payload_len mem bytes len) < sizeof_profinet_request := by
      rw [hs] at hlen ⊢; unfold tcp_payload_len to_size_t to_int; omega
    rw [pcap_parse_tcp_eq, if_neg g1, if_pos g2, if_pos g3]
    rfl
  · intro hlen
    have g1 : ¬ to_size_t len < sizeof_tcphdr := by
      rw [hs] at hlen; unfold to_size_t sizeof_tcphdr; omega
    have hp : tcp_payload_len mem bytes len = (sizeof_profinet_request : Nat) := by
      rw [hs] at hlen ⊢; unfold tcp_payload_len to_int; omega
    have g3 : ¬ to_size_t (tcp_payload_len mem bytes len) < sizeof_profinet_request := by
      rw [hp, hs]; decide
    rw [pcap_parse_tcp_eq, if_neg g1, if_pos g2, if_neg g3, hp, Exec.after_after]
    rfl

/-- Witness of C14: the valid request without its last byte behind a 20-byte header. -/
theorem C14_payload_gate_boundary_witness :
    pcap_parse_tcp NULL (mem_of short_payload_segment) 0 47 =
      ⟨[.call .pcap_parse_tcp 0 (some 47), .load 2 2, .load 0 2, .load 12 1],
       .returned ()⟩ :=
  (C14_payload_gate_boundary (mem_of short_payload_segment) 0 47 (by decide)).2.1 (by decide)

/-- C15. For every payload, length and `user`, `pcap_parse_profinet_request` and
`pcap_parse_profinet_response` are the same run of `dump_profinet_request` on the same
arguments, preceded by the entry of the function and by its banner: they end the same way
(both return, or both abort on the same assertion), load the same bytes and print the same
field lines; only the entered function and the banner differ. -/
theorem C15_request_and_response_decode_alike (user : Nat) (mem : Mem) (bytes : Nat)
    (len : Int) :
    (pcap_parse_profinet_request user mem bytes len).trace =
      [.call .pcap_parse_profinet_request bytes (some len), .print .request_banner] ++
        (dump_profinet_request mem bytes len).trace ∧
    (pcap_parse_profinet_response user mem bytes len).trace =
      [.call .pcap_parse_profinet_response bytes (some len), .print .response_banner] ++
        (dump_profinet_request mem bytes len).trace ∧
    (pcap_parse_profinet_request user mem bytes len).outcome =
      (dump_profinet_request mem bytes len).outcome ∧
    (pcap_parse_profinet_response user mem bytes len).outcome =
      (dump_profinet_request mem bytes len).outcome ∧
    (pcap_parse_profinet_request user mem bytes len).lines =
      .request_banner :: (dump_profinet_request mem bytes len).lines ∧
    (pcap_parse_profinet_response user mem bytes len).lines =
      .response_banner :: (dump_profinet_request mem bytes len).lines ∧
    (pcap_parse_profinet_request user mem bytes len).loads =
      (pcap_parse_profinet_response user mem bytes len).loads := by
  rw [pcap_parse_profinet_request_eq, pcap_parse_profinet_response_eq]
  simp [Exec.after, Exec.lines, Exec.loads]

/-- C16, amended. In `struct profinet_request` the outer transport header occupies the first
7 bytes, one padding byte follows, and the inner block header starts at offset 8 and is 8
bytes long; the request body starts right after it, at offset 16. Accordingly
`dump_profinet_ibh_header` is entered on the payload offset by 8, the channel id is the
little-endian value of payload bytes 8 and 9, and the run aborts on the channel assertion
exactly when the outer header passes its checks and that value is not 7. -/
theorem C16_inner_header_offset (mem : Mem) (r : Nat) (len : Int) :
    sizeof_profinet_iso_header = 7 ∧ offsetof_request_ibh = 8 ∧
    sizeof_profinet_ibh_header = 8 ∧
    offsetof_request_prefix_ = offsetof_request_ibh + sizeof_profinet_ibh_header ∧
    (deref_request mem r).ibh.channel = mem8 mem (r + 8) + 256 * mem8 mem (r + 9) ∧
    (∀ p n, (Func.dump_profinet_ibh_header, p, n) ∈ (dump_profinet_request mem r len).calls →
      p = r + 8) ∧
    ((dump_profinet_request mem r len).outcome = .aborted .ibh_channel ↔
      mem8 mem r = 0x03 ∧ (mem8 mem (r + 5) = 0xF0 ∨ mem8 mem (r + 5) = 0xE0) ∧
        mem8 mem (r + 8) + 256 * mem8 mem (r + 9) ≠ 7) := by
  refine ⟨rfl, by decide, by decide, by decide, ?_, ?_, ?_⟩
  · rw [(deref_request_fields mem r).2.2.2.1]; rfl
  · intro p n h
    exact (dump_profinet_request_ibh_call mem r len p n h).1
  · rw [dump_profinet_request_outcome]
    have hc : mem16 mem (r + 8) = mem8 mem (r + 8) + 256 * mem8 mem (r + 9) := rfl
    rw [hc]
    split_ifs <;> simp_all

/-- Counterexample to C16 as stated. The valid request has 0 in byte 7 and 7 in byte 8, so
bytes 7 and 8 do not hold the channel id 7, yet its decode returns. The payload laid out
without padding, with the channel id 7 in bytes 7 and 8, aborts on the channel assertion. -/
theorem C16_channel_is_not_read_from_bytes_7_and_8 :
    mem16 (mem_of request_bytes) 7 = 1792 ∧
    (dump_profinet_request (mem_of request_bytes) 0 28).outcome = .returned () ∧
    (Event.load 7 2) ∉ (dump_profinet_request (mem_of request_bytes) 0 28).trace ∧
    (Event.load 8 2) ∈ (dump_profinet_request (mem_of request_bytes) 0 28).trace ∧
    mem16 (mem_of packed_request_bytes) 7 = 7 ∧
    (dump_profinet_request (mem_of packed_request_bytes) 0 28).outcome =
      .aborted .ibh_channel := by
  decide

/-- C17. For a TCP header with at least 20 bytes available, `pcap_parse_tcp` takes the source
port to be `256 * b[0] + b[1]`, the destination port `256 * b[2] + b[3]` and the header length
four times the high nibble of `b[12]`, a value of at most 60. After loading these fields it
aborts when the header length is below 20, returns when the gate on the payload length
discards the segment, and otherwise dispatches on the two ports; the decoder it enters
receives the buffer offset by the header length and the length `len` minus the header
length. -/
theorem C17_tcp_header_fields (mem : Mem) (bytes : Nat) (len : Int) (hint : is_int len)
    (hlen : 20 ≤ len) :
    tcp_src_port mem bytes = 256 * mem8 mem bytes + mem8 mem (bytes + 1) ∧
    tcp_dst_port mem bytes = 256 * mem8 mem (bytes + 2) + mem8 mem (bytes + 3) ∧
    tcp_hdr_len mem bytes = 4 * (mem8 mem (bytes + 12) / 16) ∧
    tcp_hdr_len mem bytes ≤ 60 ∧
    pcap_parse_tcp NULL mem bytes len =
      Exec.after
        (if 20 ≤ tcp_hdr_len mem bytes then
          if to_size_t (len - (tcp_hdr_len mem bytes : Nat)) < sizeof_profinet_request then
            ⟨[], .returned ()⟩
          else if tcp_dst_port mem bytes = 102 then
            pcap_parse_profinet_request NULL mem (bytes + tcp_hdr_len mem bytes)
              (len - (tcp_hdr_len mem bytes : Nat))
          else if tcp_src_port mem bytes = 102 then
            pcap_parse_profinet_response NULL mem (bytes + tcp_hdr_len mem bytes)
              (len - (tcp_hdr_len mem bytes : Nat))
          else
            ⟨[.print (.unknown_connection (tcp_dst_port mem bytes) (tcp_src_port mem bytes))],
              .returned ()⟩
         else ⟨[], .aborted .tcp_hdr_len⟩)
        [.call .pcap_parse_tcp bytes (some len), .load (bytes + 2) 2, .load bytes 2,
         .load (bytes + 12) 1] := by
  have h60 := tcp_hdr_len_le mem bytes
  have g1 : ¬ to_size_t len < sizeof_tcphdr := by
    unfold to_size_t sizeof_tcphdr; unfold is_int at hint; omega
  have hp : tcp_payload_len mem bytes len = len - (tcp_hdr_len mem bytes : Nat) := by
    unfold tcp_payload_len to_int; unfold is_int at hint; omega
  have hh : (to_size_t (tcp_hdr_len mem bytes : Nat) ≥ sizeof_tcphdr) =
      (20 ≤ tcp_hdr_len mem bytes) := by
    unfold to_size_t sizeof_tcphdr
    apply propext
    constructor <;> intro h <;> omega
  refine ⟨?_, ?_, ?_, h60, ?_⟩
  · simp [tcp_src_port, mem16be, offsetof_tcphdr_source]
  · simp [tcp_dst_port, mem16be, offsetof_tcphdr_dest, Nat.add_assoc]
  · simp [tcp_hdr_len, tcp_doff, offsetof_tcphdr_doff, Nat.mul_comm]
  · rw [pcap_parse_tcp_eq, if_neg g1, hp, Exec.after_after]
    simp only [hh, PROFINET_PORT]
    rfl

/-- Witness of C17: the 48-byte segment from port 4000 to port 102 carrying the valid
request is handed to the request decoder at offset 20 with length 28. -/
theorem C17_tcp_header_fields_witness :
    pcap_parse_tcp NULL (mem_of (request_segment 4000 102)) 0 48 =
      (pcap_parse_profinet_request NULL (mem_of (request_segment 4000 102)) 20 28).after
        [.call .pcap_parse_tcp 0 (some 48), .load 2 2, .load 0 2, .load 12 1] :=
  (C17_tcp_header_fields (mem_of (request_segment 4000 102)) 0 48 (by decide)
    (by decide)).2.2.2.2

/-- C18. For an IPv4 header with version 4 and at least 20 bytes available: when the protocol
byte is 6, the rest of the run of `pcap_parse_ip4` is the TCP decoder on the buffer offset by
`ihl * 4` with length `len - ihl * 4`; for every other protocol value, 17 included, the one
line "Unknown IP protocol" with the protocol number is printed, no decoder is entered and the
function returns. With a number of available bytes below 20 the run consists of the entry
of `pcap_parse_ip4` alone and returns, whatever the bytes are. -/
theorem C18_ip4_dispatch (mem : Mem) (bytes : Nat) (len : Int) (hint : is_int len) :
    (20 ≤ len → ip_version mem bytes = 4 → ip_protocol mem bytes = 6 →
      pcap_parse_ip4 NULL mem bytes len =
        (pcap_parse_tcp NULL mem (bytes + ip_ihl mem bytes * 4)
          (len - (ip_ihl mem bytes * 4 : Nat))).after
          [.call .pcap_parse_ip4 bytes (some len), .load bytes 1, .load (bytes + 9) 1,
           .load bytes 1]) ∧
    (20 ≤ len → ip_version mem bytes = 4 → ip_protocol mem bytes ≠ 6 →
      pcap_parse_ip4 NULL mem bytes len =
        ⟨[.call .pcap_parse_ip4 bytes (some len), .load bytes 1, .load (bytes + 9) 1,
          .load bytes 1, .print (.unknown_ip_protocol (ip_protocol mem bytes))],
         .returned ()⟩) ∧
    (∀ avail : Nat, avail < 20 →
      pcap_parse_ip4 NULL mem bytes avail =
        ⟨[.call .pcap_parse_ip4 bytes (some (avail : Int))], .returned ()⟩) := by
  have h60 := ip_ihl_le mem bytes
  refine ⟨?_, ?_, ?_⟩
  · intro hlen hv hp
    have g1 : ¬ to_size_t len < sizeof_iphdr := by
      unfold to_size_t sizeof_iphdr; unfold is_int at hint; omega
    have hp2 : ip_protocol mem bytes = IPPROTO_TCP := hp
    have hl : to_int (len - (ip_ihl mem bytes * 4 : Nat)) = len - (ip_ihl mem bytes * 4 : Nat) := by
      unfold to_int; unfold is_int at hint; omega
    rw [pcap_parse_ip4_eq, if_neg g1, if_pos hv, if_pos hp2, hl, Exec.after_after]
    rfl
  · intro hlen hv hp
    have g1 : ¬ to_size_t len < sizeof_iphdr := by
      unfold to_size_t sizeof_iphdr; unfold is_int at hint; omega
    have hp2 : ¬ ip_protocol mem bytes = IPPROTO_TCP := hp
    rw [pcap_parse_ip4_eq, if_neg g1, if_pos hv, if_neg hp2]
    rfl
  · intro avail h20
    have g1 : to_size_t (avail : Int) < sizeof_iphdr := by
      unfold to_size_t sizeof_iphdr; omega
    rw [pcap_parse_ip4_eq, if_pos g1]
    rfl

/-- Witness of C18: a 20-byte IPv4 header with protocol 17 (UDP). -/
theorem C18_ip4_dispatch_witness :
    pcap_parse_ip4 NULL (mem_of udp_packet) 0 20 =
      ⟨[.call .pcap_parse_ip4 0 (some 20), .load 0 1, .load 9 1, .load 0 1,
        .print (.unknown_ip_protocol 17)],
       .returned ()⟩ :=
  (C18_ip4_dispatch (mem_of udp_packet) 0 20 (by decide)).2.1 (by decide) (by decide)
    (by decide)

/-- C19. The outer length field is one byte, compared for equality with the `int` payload
length. So with a payload length above 255 or below 0 the decoder aborts on an assertion
whatever the payload bytes are, also through `pcap_parse_profinet_request` and
`pcap_parse_profinet_response`. And whenever `pcap_parse_tcp` hands a segment to a decoder
and the run returns, the payload length lies between `sizeof(struct profinet_request) = 28`
and 255. -/
theorem C19_payload_length_range (mem : Mem) (bytes : Nat) (len : Int) (seg : Nat)
    (seglen : Int) :
    (len < 0 ∨ 255 < len →
      (∃ a, (dump_profinet_request mem bytes len).outcome = .aborted a) ∧
      (∃ a, (pcap_parse_profinet_request NULL mem bytes len).outcome = .aborted a) ∧
      (∃ a, (pcap_parse_profinet_response NULL mem bytes len).outcome = .aborted a)) ∧
    (classified_request (pcap_parse_tcp NULL mem seg seglen) ∨
        classified_response (pcap_parse_tcp NULL mem seg seglen) →
      (pcap_parse_tcp NULL mem seg seglen).outcome = .returned () →
      (sizeof_profinet_request : Int) ≤ tcp_payload_len mem seg seglen ∧
        tcp_payload_len mem seg seglen ≤ 255) := by
  constructor
  · intro hlen
    have h : ∃ a, (dump_profinet_request mem bytes len).outcome = .aborted a := by
      cases ho : (dump_profinet_request mem bytes len).outcome with
      | returned u =>
        have := dump_profinet_request_returned_len mem bytes len ho
        omega
      | aborted a => exact ⟨a, rfl⟩
    refine ⟨h, ?_, ?_⟩
    · rw [pcap_parse_profinet_request_eq, Exec.outcome_after]; exact h
    · rw [pcap_parse_profinet_response_eq, Exec.outcome_after]; exact h
  · intro hdec hok
    have hs : sizeof_profinet_request = 28 := by decide
    obtain ⟨_, _, h28, h255⟩ := pcap_parse_tcp_decoded mem seg seglen hdec hok
    rw [hs]
    exact ⟨h28, h255⟩

/-- Witness of C19: the valid request presented with length 256. -/
theorem C19_payload_length_range_witness :
    ∃ a, (dump_profinet_request (mem_of request_bytes) 0 256).outcome = .aborted a :=
  ((C19_payload_length_range (mem_of request_bytes) 0 256 0 0).1 (Or.inr (by decide))).1

/-- C20. End to end from `pcap_callback`, for a record with `caplen < 2^31`: when the run
hands the record to the request or the response decoder and returns, the headers and the
fixed request fit into the captured bytes,
`14 + ihl * 4 + doff * 4 + sizeof(struct profinet_request) <= caplen`, where `ihl` is read at
offset 14 and `doff` at the start of the TCP header, and every load of the run lies inside
the captured bytes `[bytes, bytes + caplen)`. -/
theorem C20_decoded_record_is_read_in_bounds (mem : Mem) (caplen bytes : Nat)
    (hcaplen : caplen < 2147483648)
    (hdec : classified_request (pcap_callback NULL mem caplen bytes) ∨
      classified_response (pcap_callback NULL mem caplen bytes))
    (hok : (pcap_callback NULL mem caplen bytes).outcome = .returned ()) :
    14 + ip_ihl mem (bytes + 14) * 4 +
        tcp_doff mem (bytes + 14 + ip_ihl mem (bytes + 14) * 4) * 4 +
        sizeof_profinet_request ≤ caplen ∧
    ∀ a w, (a, w) ∈ (pcap_callback NULL mem caplen bytes).loads →
      bytes ≤ a ∧ a + w ≤ bytes + caplen := by
  obtain ⟨h14, hcb, hdec1, hok1⟩ := pcap_callback_decoded mem caplen bytes hdec hok
  have hl1 : to_int ((caplen : Int) - 14) = (caplen : Int) - 14 := by
    unfold to_int; omega
  rw [hl1] at hcb hdec1 hok1
  obtain ⟨g1, hip, hdec2, hok2⟩ := pcap_parse_ip4_decoded mem (bytes + 14) _ hdec1 hok1
  have h60 := ip_ihl_le mem (bytes + 14)
  have hl2 : to_int ((caplen : Int) - 14 - (ip_ihl mem (bytes + 14) * 4 : Nat)) =
      (caplen : Int) - 14 - (ip_ihl mem (bytes + 14) * 4 : Nat) := by
    unfold to_int; unfold to_size_t sizeof_iphdr at g1; omega
  rw [hl2] at hip hdec2 hok2
  obtain ⟨g2, hh, h28, _⟩ := pcap_parse_tcp_decoded mem _ _ hdec2 hok2
  have hth := tcp_hdr_len_le mem (bytes + 14 + ip_ihl mem (bytes + 14) * 4)
  have hpl : tcp_payload_len mem (bytes + 14 + ip_ihl mem (bytes + 14) * 4)
      ((caplen : Int) - 14 - (ip_ihl mem (bytes + 14) * 4 : Nat)) =
      (caplen : Int) - 14 - (ip_ihl mem (bytes + 14) * 4 : Nat) -
        (tcp_hdr_len mem (bytes + 14 + ip_ihl mem (bytes + 14) * 4) : Nat) := by
    unfold tcp_payload_len to_int; omega
  rw [hpl] at h28
  have hs : sizeof_profinet_request = 28 := by decide
  have hd : tcp_doff mem (bytes + 14 + ip_ihl mem (bytes + 14) * 4) * 4 =
      tcp_hdr_len mem (bytes + 14 + ip_ihl mem (bytes + 14) * 4) := rfl
  have hineq : 14 + ip_ihl mem (bytes + 14) * 4 +
      tcp_hdr_len mem (bytes + 14 + ip_ihl mem (bytes + 14) * 4) + 28 ≤ caplen := by
    omega
  refine ⟨by rw [hd, hs]; exact hineq, ?_⟩
  intro a w hm
  rw [hcb, hip] at hm
  simp only [Exec.loads_after, List.mem_append] at hm
  rcases hm with hm | hm | hm
  · simp [Exec.loads] at hm; omega
  · simp [Exec.loads] at hm; omega
  · have := pcap_parse_tcp_loads mem _ _ a w hm
    omega

/-- Witness of C20: the 82-byte frame carrying the valid request to port 102. -/
theorem C20_decoded_record_is_read_in_bounds_witness :
    14 + ip_ihl (mem_of request_frame) (0 + 14) * 4 +
        tcp_doff (mem_of request_frame) (0 + 14 + ip_ihl (mem_of request_frame) (0 + 14) * 4)
          * 4 +
        sizeof_profinet_request ≤ 82 ∧
    ∀ a w, (a, w) ∈ (pcap_callback NULL (mem_of request_frame) 82 0).loads →
      0 ≤ a ∧ a + w ≤ 0 + 82 :=
  C20_decoded_record_is_read_in_bounds (mem_of request_frame) 82 0 (by decide)
    (Or.inl (by decide)) (by decide)

end Analyze
